import Mathlib

/-!
Verification of the nodeshot reconciliation pipeline against its
natural-language specification.

The development shallowly embeds two source units:

* `nodeshot/extra/oldimporter/management/commands/import_old_nodeshot.py`
  (the one-shot legacy migration command), and
* `nodeshot/interoperability/synchronizers/CitySdkMobility.py`
  (the CitySDK Mobility synchronizer adapter).

Python dictionaries are modelled as association lists kept in insertion
order, database rows as Lean structures, database autoincrement ids as
explicit counters, and every effectful or external dependency (Django
`full_clean` validation, `slugify`, `netaddr` address validation, HTTP
responses, the interactive prompt) as an explicit oracle parameter.
Exceptions are modelled with `Except`.
-/

namespace Nodeshot

/-- Python exception values that cross function boundaries in the
embedded code. -/
inductive PyErr where
  | keyError
  | improperlyConfigured (msg : String)
  | attributeError
  | jsonDecodeError
  | requestException
  | integrityError
  deriving DecidableEq

/-- One logged message, reduced to the message template and the
identifying key interpolated into it. -/
structure LogEntry where
  tag : String
  key : String
  deriving DecidableEq

/-- A canonical `Status` row: `Status.objects` has `id` and `slug`. -/
structure CStatus where
  id : Nat
  slug : String
  deriving DecidableEq

/-- Truthiness of the `status_mapping` attribute: Python treats both
`False` (modelled `none`) and the empty dict as falsy. -/
def truthyMap (m : Option (List (String × Nat))) : Bool :=
  match m with
  | none => false
  | some l => !l.isEmpty

/-- Embeds `Command.get_status` (import_old_nodeshot.py lines 277-278).
The Python body is the single expression
`self.status_mapping.get(value, self.status_mapping['default'])`:
both arguments of `.get` are evaluated eagerly, so a missing
`'default'` key raises `KeyError`; otherwise the looked-up value is
computed and then discarded, because the function has no `return`
statement and therefore returns `None`. -/
def get_status (mapping : List (String × Nat)) (value : String) :
    Except PyErr (Option Nat) :=
  match mapping.lookup "default" with
  | none => .error .keyError
  | some d =>
    let _discarded := (mapping.lookup value).getD d
    .ok none

/-- Modelled from the spec: the status-resolution contract of §4.1,
`resolve(legacyCode) -> canonicalStatusId`, "falling back to the
mapping's designated default entry when the code is unmapped".  The
source's `Command.get_status` computes exactly this value but drops it
(see `get_status`); this definition is the spec's intended result, kept
for comparison. -/
def get_status_spec (mapping : List (String × Nat)) (value : String) :
    Option Nat :=
  match mapping.lookup value with
  | some v => some v
  | none => mapping.lookup "default"

/-- Loop body of `Command.check_status_mapping` (lines 268-273): for
each `(old_val, new_val)` entry look up the `Status` row whose slug is
`new_val`; a missing row raises `ImproperlyConfigured`, a found row
replaces the entry's value with the row's id. -/
def check_status_mapping_go (statuses : List CStatus) :
    List (String × String) → Except PyErr (List (String × Nat))
  | [] => .ok []
  | (old_val, new_val) :: rest =>
    match statuses.find? (fun c => c.slug == new_val) with
    | none => .error (.improperlyConfigured new_val)
    | some c =>
      match check_status_mapping_go statuses rest with
      | .error e => .error e
      | .ok tail => .ok ((old_val, c.id) :: tail)

/-- Embeds `Command.check_status_mapping` (lines 260-275).  A falsy
mapping (`False`, modelled `none`, or the empty dict) returns early
leaving the mapping untouched; otherwise every target slug must name an
existing `Status` row and is replaced by that row's id. -/
def check_status_mapping (mapping : Option (List (String × String)))
    (statuses : List CStatus) : Except PyErr (Option (List (String × Nat))) :=
  match mapping with
  | none => .ok none
  | some m =>
    if m.isEmpty then .ok (some [])
    else
      match check_status_mapping_go statuses m with
      | .error e => .error e
      | .ok checked => .ok (some checked)

/-- The id `check_status_mapping` substitutes for a slug: the id of the
first canonical status carrying that slug (`Status.objects.get`), with
an arbitrary default that is never reached when the slug exists. -/
def statusIdOf (statuses : List CStatus) (slug : String) : Nat :=
  match statuses.find? (fun c => c.slug == slug) with
  | some c => c.id
  | none => 0

/-! ## Legacy records (old mysql database rows, read-only) -/

/-- A legacy node row (`OldNode`).  `geometry` is built as
`Point(lng, lat)`; coordinates are abstracted to integers since none of
the verified properties computes with them. -/
structure OldNode where
  id : Nat
  email : String
  owner : String
  name : String
  slug : String
  lat : Int
  lng : Int
  alt : Int
  description : String
  notes : String
  added : Nat
  updated : Nat
  status : String
  postal_code : String
  deriving DecidableEq

/-- A legacy device row (`OldDevice`). -/
structure OldDevice where
  id : Nat
  node_id : Nat
  name : String
  description : String
  dtype : String
  cname : String
  routing_protocol : String
  added : Nat
  updated : Nat
  deriving DecidableEq

/-- A legacy interface row (`OldInterface`).  `type_display` stands for
Django's `get_type_display()`. -/
structure OldInterface where
  id : Nat
  device_id : Nat
  mac_address : String
  cname : String
  itype : String
  wireless_mode : String
  wireless_channel : String
  essid : String
  bssid : String
  ipv4_address : String
  ipv6_address : String
  added : Nat
  updated : Nat
  type_display : String
  deriving DecidableEq

/-- A legacy link row (`OldLink`). -/
structure OldLink where
  id : Nat
  from_interface_id : Nat
  to_interface_id : Nat
  sync_tx : Int
  sync_rx : Int
  etx : Int
  dbm : Int
  hide : Bool
  deriving DecidableEq

/-- A legacy contact-log row (`OldContact`). -/
structure OldContact where
  id : Nat
  node_id : Nat
  from_name : String
  from_email : String
  message : String
  ip : String
  user_agent : String
  accept_language : String
  date : Nat
  deriving DecidableEq

/-! ## Canonical store rows (the destination database) -/

/-- A saved `User` row. -/
structure UserRec where
  id : Nat
  username : String
  password : String
  first_name : String
  last_name : String
  email : String
  is_active : Bool
  deriving DecidableEq

/-- A saved `Node` row.  `data` is the HSTORE attribute map. -/
structure NodeRec where
  id : Nat
  user_id : Nat
  name : String
  slug : String
  geometry : Int × Int
  elev : Int
  description : String
  notes : String
  added : Nat
  updated : Nat
  data : List (String × String)
  layer_id : Option Nat
  status_id : Option Nat
  deriving DecidableEq

/-- A saved `Device` row. -/
structure DeviceRec where
  id : Nat
  node_id : Nat
  dtype : String
  name : String
  description : String
  added : Nat
  updated : Nat
  data : List (String × String)
  deriving DecidableEq

/-- A saved `RoutingProtocol` row. -/
structure RpRec where
  id : Nat
  name : String
  deriving DecidableEq

/-- The interface type tag, drawn from `INTERFACE_TYPES`. -/
inductive IfaceType where
  | ethernet
  | wireless
  | bridge
  | tunnel
  | virtual
  deriving DecidableEq

/-- A saved interface row (`Interface` and its proxy models
`Ethernet`, `Wireless`, `Bridge`, `Tunnel`).  Type-specific columns not
set by a branch are `none`. -/
structure IfaceRec where
  id : Nat
  device_id : Nat
  mac : String
  name : String
  added : Nat
  updated : Nat
  itype : IfaceType
  standard : Option String
  duplex : Option String
  mode : Option String
  channel : Option String
  data : List (String × String)
  deriving DecidableEq

/-- A saved `Vap` row. -/
structure VapRec where
  interface_id : Nat
  essid : String
  bssid : String
  deriving DecidableEq

/-- A saved `Ip` row. -/
structure IpRec where
  interface_id : Nat
  address : String
  deriving DecidableEq

/-- A saved `Link` row.  Numeric choice codes (`LINK_STATUS`,
`LINK_TYPES`) are abstracted to their names; `access_level` is `none`
when the model default applies. -/
structure LinkRec where
  id : Nat
  interface_a : Nat
  interface_b : Nat
  status : String
  ltype : String
  metric_type : String
  metric_value : Int
  dbm : Int
  min_rate : Int
  max_rate : Int
  access_level : Option Nat
  deriving DecidableEq

/-- A saved `Inward` contact-log row. -/
structure ContactRec where
  id : Nat
  content_type : String
  object_id : Nat
  status : Nat
  from_name : String
  from_email : String
  message : String
  ip : String
  user_agent : String
  accept_language : String
  added : Nat
  updated : Nat
  deriving DecidableEq

/-- The canonical store, one list per row kind.  The same shape serves
as the run's rollback journal (the `saved_*` instance attributes of the
command). -/
structure Store where
  users : List UserRec
  nodes : List NodeRec
  devices : List DeviceRec
  routing_protocols : List RpRec
  interfaces : List IfaceRec
  vaps : List VapRec
  ipv4s : List IpRec
  ipv6s : List IpRec
  links : List LinkRec
  contacts : List ContactRec
  deriving DecidableEq

/-- The empty store / the empty journal (the command's `saved_*`
attributes are initialised to empty lists). -/
def emptyStore : Store :=
  ⟨[], [], [], [], [], [], [], [], [], []⟩

/-- Modelled from the spec: deleting interface rows cascades to their
dependents.  The ORM models live outside the extracted sources; §3
specifies rollback "delete in reverse dependency order" over
"interfaces/sub-entities" and §2 records vaps, addresses and links as
entities referencing interfaces, so deleting an interface removes its
`Vap` and `Ip` rows and every link having it as an endpoint. -/
def Store.purgeInterfacesBy (s : Store) (p : Nat → Bool) : Store :=
  { s with
    interfaces := s.interfaces.filter (fun i => !(p i.id)),
    vaps := s.vaps.filter (fun v => !(p v.interface_id)),
    ipv4s := s.ipv4s.filter (fun a => !(p a.interface_id)),
    ipv6s := s.ipv6s.filter (fun a => !(p a.interface_id)),
    links := s.links.filter (fun l => !(p l.interface_a) && !(p l.interface_b)) }

/-- Modelled from the spec: deleting device rows cascades to their
interfaces (and transitively to the interfaces' dependents). -/
def Store.purgeDevicesBy (s : Store) (p : Nat → Bool) : Store :=
  let s1 := s.purgeInterfacesBy
    (fun iid => s.interfaces.any (fun i => i.id == iid && p i.device_id))
  { s1 with devices := s1.devices.filter (fun d => !(p d.id)) }

/-- Modelled from the spec: deleting node rows cascades to their
devices and transitively below.  Contact-log rows reference nodes only
through a generic content-type pair and do not cascade. -/
def Store.purgeNodesBy (s : Store) (p : Nat → Bool) : Store :=
  let s1 := s.purgeDevicesBy
    (fun did => s.devices.any (fun d => d.id == did && p d.node_id))
  { s1 with nodes := s1.nodes.filter (fun n => !(p n.id)) }

/-- Delete one interface row by id (`interface.delete()`). -/
def Store.deleteInterface (s : Store) (iid : Nat) : Store :=
  s.purgeInterfacesBy (· == iid)

/-- Delete one device row by id (`device.delete()`). -/
def Store.deleteDevice (s : Store) (did : Nat) : Store :=
  s.purgeDevicesBy (· == did)

/-- Delete one routing-protocol row by id
(`routing_protocol.delete()`); only membership rows of the
many-to-many table depend on it, so no entity kind cascades. -/
def Store.deleteRoutingProtocol (s : Store) (rid : Nat) : Store :=
  { s with routing_protocols := s.routing_protocols.filter (fun r => !(r.id == rid)) }

/-- Delete one node row by id (`node.delete()`). -/
def Store.deleteNode (s : Store) (nid : Nat) : Store :=
  s.purgeNodesBy (· == nid)

/-- Delete one contact-log row by id (`contact.delete()`). -/
def Store.deleteContact (s : Store) (cid : Nat) : Store :=
  { s with contacts := s.contacts.filter (fun c => !(c.id == cid)) }

/-- Delete one user row by id (`user.delete()`), cascading to the
user's nodes and transitively below. -/
def Store.deleteUser (s : Store) (uid : Nat) : Store :=
  let s1 := s.purgeNodesBy
    (fun nid => s.nodes.any (fun n => n.id == nid && n.user_id == uid))
  { s1 with users := s1.users.filter (fun u => !(u.id == uid)) }

/-- Embeds `Command.delete_imported_data` (lines 172-209): the rollback
routine deletes the journalled entities kind by kind, in the source's
order — interfaces, devices, routing protocols, nodes, contact-log
entries, users.  The per-entity `try/except` of the source only logs a
failed delete; this embedding models the delete calls themselves, so
each listed entity's delete is performed. -/
def delete_imported_data (j : Store) (s : Store) : Store :=
  let s1 := j.interfaces.foldl (fun st i => st.deleteInterface i.id) s
  let s2 := j.devices.foldl (fun st d => st.deleteDevice d.id) s1
  let s3 := j.routing_protocols.foldl (fun st r => st.deleteRoutingProtocol r.id) s2
  let s4 := j.nodes.foldl (fun st n => st.deleteNode n.id) s3
  let s5 := j.contacts.foldl (fun st c => st.deleteContact c.id) s4
  j.users.foldl (fun st u => st.deleteUser u.id) s5

/-- Componentwise containment of stores: every row of `t` is a row of
`s`.  Every deletion step only shrinks the store. -/
def Store.Included (t s : Store) : Prop :=
  t.users ⊆ s.users ∧ t.nodes ⊆ s.nodes ∧ t.devices ⊆ s.devices ∧
  t.routing_protocols ⊆ s.routing_protocols ∧
  t.interfaces ⊆ s.interfaces ∧ t.vaps ⊆ s.vaps ∧
  t.ipv4s ⊆ s.ipv4s ∧ t.ipv6s ⊆ s.ipv6s ∧
  t.links ⊆ s.links ∧ t.contacts ⊆ s.contacts

/-- No trace of interface `iid` is left: no interface row with that
id, and no vap, address or link attached to it. -/
def Store.ifaceGone (s : Store) (iid : Nat) : Prop :=
  (∀ x ∈ s.interfaces, x.id ≠ iid) ∧
  (∀ v ∈ s.vaps, v.interface_id ≠ iid) ∧
  (∀ a ∈ s.ipv4s, a.interface_id ≠ iid) ∧
  (∀ a ∈ s.ipv6s, a.interface_id ≠ iid) ∧
  (∀ l ∈ s.links, l.interface_a ≠ iid ∧ l.interface_b ≠ iid)

/-- No entity recorded in the journal `j` remains in the store `f`:
the post-rollback property of the run, for every entity kind. -/
def run_purged (j f : Store) : Prop :=
  (∀ u ∈ j.users, u ∉ f.users) ∧ (∀ n ∈ j.nodes, n ∉ f.nodes) ∧
  (∀ d ∈ j.devices, d ∉ f.devices) ∧
  (∀ r ∈ j.routing_protocols, r ∉ f.routing_protocols) ∧
  (∀ i ∈ j.interfaces, i ∉ f.interfaces) ∧
  (∀ v ∈ j.vaps, v ∉ f.vaps) ∧ (∀ a ∈ j.ipv4s, a ∉ f.ipv4s) ∧
  (∀ a ∈ j.ipv6s, a ∉ f.ipv6s) ∧ (∀ l ∈ j.links, l ∉ f.links) ∧
  (∀ c ∈ j.contacts, c ∉ f.contacts)

/-! ## User phase (`extract_users`, `import_users`) -/

/-- Python's `str.capitalize()`: first character uppercased, the rest
lowercased. -/
def py_capitalize (s : String) : String :=
  match s.toList with
  | [] => ""
  | c :: rest => String.mk (c.toUpper :: rest.map Char.toLower)

/-- Drop leading whitespace characters. -/
def dropLeadingSpaces : List Char → List Char
  | [] => []
  | c :: cs => if c.isWhitespace then dropLeadingSpaces cs else c :: cs

/-- Python's `str.strip()`: whitespace removed from both ends
(implemented structurally over the character list). -/
def py_strip (s : String) : String :=
  String.mk (((dropLeadingSpaces s.toList).reverse |> dropLeadingSpaces).reverse)

/-- Helper of `py_split`: accumulate the current field until the
separator. -/
def py_split_go (sep : Char) : List Char → List Char → List String
  | [], acc => [String.mk acc.reverse]
  | c :: cs, acc =>
    if c == sep then String.mk acc.reverse :: py_split_go sep cs []
    else py_split_go sep cs (c :: acc)

/-- Python's `str.split(sep)` for a one-character separator. -/
def py_split (sep : Char) (s : String) : List String :=
  py_split_go sep s.toList []

/-- Python's `c in s` membership test for one character. -/
def py_contains (s : String) (c : Char) : Bool :=
  s.toList.contains c

/-- Python's `str.replace(a, b)` for one-character arguments. -/
def py_replace (s : String) (a b : Char) : String :=
  String.mk (s.toList.map (fun c => if c == a then b else c))

/-- Lines 320-324: when the legacy `owner` field is blank, derive the
owner name from the email local part, replacing dots with spaces.
(`email.split('@')` is modelled by taking the part before the first
`@`.) -/
def derive_owner (owner email : String) : String :=
  if py_strip owner = "" then py_replace ((py_split '@' email).headD "") '.' ' '
  else owner

/-- Lines 327-333: an owner containing a space splits into first and
second word as first/last name; otherwise the whole owner is the first
name. -/
def split_name (owner : String) : String × String :=
  if py_contains owner ' ' then
    let parts := py_split ' ' owner
    (parts.headD "", (parts.drop 1).headD "")
  else (owner, "")

/-- The username tried at a given collision counter: the slugified base
for counter 1, `'%s%d' % (original_username, counter)` afterwards
(lines 349-356). -/
def candidate (base : String) (counter : Nat) : String :=
  if counter == 1 then base else base ++ toString counter

/-- Fuel-indexed unrolling of the `while True` collision loop of lines
349-356: while the current candidate matches a persisted username,
increment the counter and retry. -/
def unique_username_go (taken : List String) (base : String) :
    Nat → Nat → String
  | 0, counter => candidate base counter
  | fuel + 1, counter =>
    if candidate base counter ∈ taken then
      unique_username_go taken base fuel (counter + 1)
    else candidate base counter

/-- The username finally given to a new user.  The source loop runs
unboundedly; `taken.length + 1` steps always reach a free candidate
because distinct counters render distinct decimal suffixes, so the fuel
never runs out on the loop's actual executions. -/
def unique_username (taken : List String) (base : String) : String :=
  unique_username_go taken base (taken.length + 1) 1

/-- Loop body of `Command.extract_users` (lines 297-303): walk the
legacy nodes accumulating each first occurrence of an email together
with that node's owner field.  The Python code keeps a `set` plus a
dict; the embedding keeps first-occurrence order. -/
def extract_go (seen : List String) : List OldNode → List (String × String)
  | [] => []
  | n :: rest =>
    if n.email ∈ seen then extract_go seen rest
    else (n.email, n.owner) :: extract_go (n.email :: seen) rest

/-- Embeds `Command.extract_users` (lines 290-308): one entry per
unique legacy email. -/
def extract_users (olds : List OldNode) : List (String × String) :=
  extract_go [] olds

/-- The `User(**{...})` construction of lines 320-346: derive the
owner name, split it into first/last, slugify it, uniquify the
username against the already-persisted ones, and generate the random
credential. -/
def build_user (slug : String → String) (pw : String → String)
    (nextId : Nat) (taken : List String) (email owner : String) : UserRec :=
  let ownerD := derive_owner owner email
  let names := split_name ownerD
  { id := nextId, username := unique_username taken (slug ownerD),
    password := pw email, first_name := py_capitalize names.1,
    last_name := py_capitalize names.2, email := email, is_active := true }

/-- Loop body of `Command.import_users` (lines 317-377).  Arguments:
`slug` is Django's `slugify`, `pw` the random password generator (both
external, passed as oracles), `cleanOk` the outcome of
`full_clean()`/`save()`, `nextId` the database autoincrement counter,
`taken` the usernames already persisted (`User.objects.filter`).
Returns the saved users, the `users_dict` id entries (an entry is
`none` when the save failed and no id was recorded), and the log. -/
def import_users_go (slug : String → String) (pw : String → String)
    (cleanOk : UserRec → Bool) :
    List (String × String) → Nat → List String →
    List UserRec × List (String × Option Nat) × List LogEntry
  | [], _, _ => ([], [], [])
  | (email, owner) :: rest, nextId, taken =>
    let u := build_user slug pw nextId taken email owner
    if cleanOk u then
      let out := import_users_go slug pw cleanOk rest (nextId + 1)
        (taken ++ [u.username])
      (u :: out.1, (email, some nextId) :: out.2.1, out.2.2)
    else
      let out := import_users_go slug pw cleanOk rest nextId taken
      (out.1, (email, none) :: out.2.1,
        ⟨"Could not save user", u.username⟩ :: out.2.2)

/-- Embeds `Command.import_users` for a given extracted email/owner
list, autoincrement start and pre-existing usernames. -/
def import_users (slug : String → String) (pw : String → String)
    (cleanOk : UserRec → Bool) (entries : List (String × String))
    (firstId : Nat) (existing : List String) :
    List UserRec × List (String × Option Nat) × List LogEntry :=
  import_users_go slug pw cleanOk entries firstId existing

/-! ## Node phase (`import_nodes`) -/

/-- Python dict assignment `d[k] = v` on an insertion-ordered dict:
overwrite an existing key in place, else append. -/
def dictSet (d : List (String × String)) (k v : String) :
    List (String × String) :=
  if d.any (fun p => p.1 == k) then
    d.map (fun p => if p.1 == k then (k, v) else p)
  else d ++ [(k, v)]

/-- A geographic layer (zone).  The polygon is abstracted to its
decidable point-containment test. -/
structure Layer where
  id : Nat
  containsPt : Int × Int → Bool

/-- The validated answers of `Command.prompt_layer_selection`
(lines 211-254): a listed layer id, `"default"`, or `"discard"`.  The
re-prompt loop only terminates on one of these, so the decision
provider is modelled as directly yielding a validated answer. -/
inductive LayerAnswer where
  | chosen (layerId : Nat)
  | useDefault
  | discard

/-- Result of the layer-resolution block. -/
inductive LayerOutcome where
  | assigned (layerId : Nat)
  | discarded
  deriving DecidableEq

/-- Modelled from the spec: `node.intersecting_layers` is a `Node`
model property outside the extracted sources; §4.2 defines it as "the
subset of zones whose polygon contains `point`". -/
def intersecting_layers (layers : List Layer) (node : NodeRec) : List Layer :=
  layers.filter (fun l => l.containsPt node.geometry)

/-- Embeds the layer-assignment block of `Command.import_nodes`
(lines 408-432).  More than one intersecting layer asks the decision
provider (the interactive prompt); exactly one assigns it directly;
zero falls back to the configured default layer or discards the node.
The returned flag records whether the provider was invoked. -/
def resolve_layer (layers : List Layer) (default_layer : Option Nat)
    (decision : NodeRec → List Layer → LayerAnswer) (node : NodeRec) :
    LayerOutcome × Bool :=
  match intersecting_layers layers node with
  | [] =>
    (match default_layer with
     | none => (.discarded, false)
     | some d => (.assigned d, false))
  | [z] => (.assigned z.id, false)
  | z1 :: z2 :: zs =>
    (match decision node (z1 :: z2 :: zs) with
     | .chosen lid => (.assigned lid, true)
     | .useDefault =>
       (match default_layer with
        | some d => (.assigned d, true)
        | none => (.discarded, true))
     | .discard => (.discarded, true))

/-- The pipeline configuration drawn from Django settings: the raw
status mapping, the canonical statuses present in the database, the
optional default layer, whether the layers app is installed, and the
layers created by hand before the run. -/
structure Cfg where
  status_mapping : Option (List (String × String))
  statuses : List CStatus
  default_layer : Option Nat
  layerAppInstalled : Bool
  layers : List Layer

/-- The `Node(**{...})` construction of lines 394-406. -/
def build_node (uid : Nat) (old : OldNode) : NodeRec :=
  { id := old.id, user_id := uid, name := old.name, slug := old.slug,
    geometry := (old.lng, old.lat), elev := old.alt,
    description := old.description, notes := old.notes,
    added := old.added, updated := old.updated,
    data := [], layer_id := none, status_id := none }

/-- The per-record pipeline of `Command.import_nodes` up to (but not
including) the save attempt, lines 389-444: skip unconfirmed nodes,
look up the owner id recorded by the user phase (a missing id raises
`KeyError` at `self.users_dict[old_node.email]['id']`), resolve the
layer, record postal code and hotspot flag in the attribute map, and
assign the status id via `get_status` when a mapping is configured.
Returns `none` for a record that is skipped or discarded, together
with the messages written. -/
def node_candidate (cfg : Cfg) (mapping : Option (List (String × Nat)))
    (usersDict : List (String × Option Nat))
    (decision : NodeRec → List Layer → LayerAnswer) (old : OldNode) :
    Except PyErr (Option NodeRec × List LogEntry) :=
  if old.status == "u" then .ok (none, [])
  else
    match usersDict.lookup old.email with
    | none => .error .keyError
    | some none => .error .keyError
    | some (some uid) =>
      let node := build_node uid old
      let afterLayer : Option NodeRec × List LogEntry :=
        if cfg.layerAppInstalled then
          match resolve_layer cfg.layers cfg.default_layer decision node with
          | (.assigned lid, _) => (some { node with layer_id := some lid }, [])
          | (.discarded, true) => (none, [⟨"Node discarded", node.name⟩])
          | (.discarded, false) =>
            (none, [⟨"Node discarded because is not contained in any specified layer and no default layer specified", node.name⟩])
        else (some node, [])
      match afterLayer with
      | (none, ls) => .ok (none, ls)
      | (some node1, ls) =>
        let node2 :=
          if old.postal_code ≠ "" then
            { node1 with data := dictSet node1.data "postal_code" old.postal_code }
          else node1
        let node3 :=
          if old.status == "h" || old.status == "ah" then
            { node2 with data := dictSet node2.data "is_hotspot" "true" }
          else node2
        match mapping with
        | none => .ok (some node3, ls)
        | some m =>
          if m.isEmpty then .ok (some node3, ls)
          else
            match get_status m old.status with
            | .error e => .error e
            | .ok s => .ok (some { node3 with status_id := s }, ls)

/-- One full record iteration of `Command.import_nodes` including the
save attempt of lines 446-452: a failed `full_clean()`/`save()` is
caught, logged with the node's name, and the record is skipped. -/
def import_node_one (cfg : Cfg) (mapping : Option (List (String × Nat)))
    (usersDict : List (String × Option Nat))
    (decision : NodeRec → List Layer → LayerAnswer)
    (cleanOk : NodeRec → Bool) (old : OldNode) :
    Except PyErr (Option NodeRec × List LogEntry) :=
  match node_candidate cfg mapping usersDict decision old with
  | .error e => .error e
  | .ok (none, ls) => .ok (none, ls)
  | .ok (some n, ls) =>
    if cleanOk n then .ok (some n, ls)
    else .ok (none, ls ++ [⟨"Could not save node", n.name⟩])

/-- Embeds `Command.import_nodes` (lines 382-455): the loop over all
legacy nodes.  An exception raised outside the per-record save guard
(the `KeyError` paths above) aborts the phase, as in the source. -/
def import_nodes (cfg : Cfg) (mapping : Option (List (String × Nat)))
    (usersDict : List (String × Option Nat))
    (decision : NodeRec → List Layer → LayerAnswer)
    (cleanOk : NodeRec → Bool) :
    List OldNode → Except PyErr (List NodeRec × List LogEntry)
  | [] => .ok ([], [])
  | old :: rest =>
    match import_node_one cfg mapping usersDict decision cleanOk old with
    | .error e => .error e
    | .ok (n?, ls) =>
      match import_nodes cfg mapping usersDict decision cleanOk rest with
      | .error e => .error e
      | .ok (ns, ls') => .ok (n?.toList ++ ns, ls ++ ls')

/-- The node phase's status lookup raises no `KeyError`: a configured
non-empty mapping carries its `default` entry (cf. `get_status`, which
evaluates `status_mapping['default']` eagerly). -/
def mapping_safe (mapping : Option (List (String × Nat))) : Prop :=
  ∀ m, mapping = some m → ¬m.isEmpty → (m.lookup "default").isSome

/-- The node phase's owner lookup raises no `KeyError`: every
non-skipped legacy node's email got an id recorded by the user
phase. -/
def dict_safe (usersDict : List (String × Option Nat))
    (olds : List OldNode) : Prop :=
  ∀ o ∈ olds, o.status ≠ "u" →
    ∃ uid, usersDict.lookup o.email = some (some uid)

/-! ## Device phase (`import_devices`) -/

/-- The `Device(**{...})` construction of lines 466-478. -/
def build_device (old : OldDevice) : DeviceRec :=
  { id := old.id, node_id := old.node_id, dtype := "radio",
    name := old.name, description := old.description,
    added := old.added, updated := old.updated,
    data := [("modello", old.dtype), ("cname", old.cname)] }

/-- The routing-protocol lookup of lines 488-492: take the first
database protocol whose name matches (`name__icontains`, oracle
`rpMatch`), else create one with the next autoincrement id.  Returns
the database protocols afterwards, the protocols created by this step
(appended to `routing_protocols_added`), and the next id. -/
def device_rp_step (rpMatch : String → String → Bool) (rps : List RpRec)
    (nextRpId : Nat) (old : OldDevice) : List RpRec × List RpRec × Nat :=
  match rps.find? (fun r => rpMatch r.name old.routing_protocol) with
  | some _ => (rps, [], nextRpId)
  | none =>
    let rp : RpRec := { id := nextRpId, name := old.routing_protocol }
    (rps ++ [rp], [rp], nextRpId + 1)

/-- Embeds `Command.import_devices` (lines 457-497).  `rpMatch` is the
`name__icontains` lookup oracle, `rps` the routing protocols already in
the database, `nextRpId` the autoincrement counter, and `fkEnforced`
whether the destination database enforces the foreign key of the
device/routing-protocol association table.  The save attempt of lines
480-486 is guarded by `try/except`, but the association
`device.routing_protocols.add(routing_protocol)` of line 493 is not:
it runs even after a caught save failure, and the association row then
references a device row that was never written, so on an enforcing
database the insert raises an uncaught `IntegrityError` and the phase
aborts (the protocol possibly created just before the abort is not
threaded into the result; the source likewise never journals it,
because `routing_protocols_added` is only assigned to the command at
phase end, which the abort never reaches).  On success, or when the
failed association does not raise, returns the saved devices, the
database routing protocols after the phase, the protocols created by
the phase (the `routing_protocols_added` journal), the next id, and
the log. -/
def import_devices (cleanOk : DeviceRec → Bool)
    (rpMatch : String → String → Bool) (fkEnforced : Bool) :
    List RpRec → Nat → List OldDevice →
    Except PyErr
      (List DeviceRec × List RpRec × List RpRec × Nat × List LogEntry)
  | rps, nextRpId, [] => .ok ([], rps, [], nextRpId, [])
  | rps, nextRpId, old :: rest =>
    let device := build_device old
    let rpStep := device_rp_step rpMatch rps nextRpId old
    if cleanOk device then
      match import_devices cleanOk rpMatch fkEnforced rpStep.1 rpStep.2.2 rest with
      | .error e => .error e
      | .ok out =>
        .ok (device :: out.1, out.2.1, rpStep.2.1 ++ out.2.2.1,
          out.2.2.2.1, out.2.2.2.2)
    else
      if fkEnforced then .error .integrityError
      else
        match import_devices cleanOk rpMatch fkEnforced rpStep.1 rpStep.2.2 rest with
        | .error e => .error e
        | .ok out =>
          .ok (out.1, out.2.1, rpStep.2.1 ++ out.2.2.1, out.2.2.2.1,
            ⟨"Could not save device", device.name⟩ :: out.2.2.2.2)

/-! ## Interface phase (`import_interfaces`) -/

/-- Bundled result of the per-record conversion of one legacy
interface: the interface row and the optional `Vap`, IPv4 and IPv6
sub-entities built alongside it. -/
structure IfaceOut where
  iface : IfaceRec
  vap : Option VapRec
  ipv4 : Option IpRec
  ipv6 : Option IpRec
  deriving DecidableEq

/-- The per-record conversion of `Command.import_interfaces`
(lines 509-578): the shared `interface_dict`, the type-specific branch
(ethernet, wireless with its `Vap` whose essid and bssid fields are
both set to the legacy essid, bridge, tunnel, and the virtual fallback
recording the legacy display name in the attribute map), and the two
address records guarded by the `netaddr` validity check `ipValid`. -/
def convert_old_interface (ipValid : String → Bool) (o : OldInterface) :
    IfaceOut :=
  let base : IfaceRec :=
    { id := o.id, device_id := o.device_id, mac := o.mac_address,
      name := o.cname.take 10, added := o.added, updated := o.updated,
      itype := .virtual, standard := none, duplex := none,
      mode := none, channel := none, data := [] }
  let withType : IfaceRec × Option VapRec :=
    if o.itype = "eth" then
      ({ base with itype := .ethernet, standard := some "fast",
                   duplex := some "full" }, none)
    else if o.itype = "wifi" then
      let vap : Option VapRec :=
        if o.essid ≠ "" ∨ o.bssid ≠ "" then
          some { interface_id := o.id, essid := o.essid, bssid := o.essid }
        else none
      let d1 := if o.essid ≠ "" then dictSet [] "essid" o.essid else []
      let d2 := if o.bssid ≠ "" then dictSet d1 "bssid" o.bssid else d1
      ({ base with itype := .wireless, mode := some o.wireless_mode,
                   channel := some o.wireless_channel, data := d2 }, vap)
    else if o.itype = "bridge" then
      ({ base with itype := .bridge }, none)
    else if o.itype = "vpn" then
      ({ base with itype := .tunnel }, none)
    else
      ({ base with itype := .virtual,
                   data := dictSet [] "old_nodeshot_interface_type" o.type_display },
       none)
  let ipv4 : Option IpRec :=
    if o.ipv4_address ≠ "" then
      if ipValid o.ipv4_address.trim then
        some { interface_id := o.id, address := o.ipv4_address.trim }
      else none
    else none
  let ipv6 : Option IpRec :=
    if o.ipv6_address ≠ "" then
      if ipValid o.ipv6_address.trim then
        some { interface_id := o.id, address := o.ipv6_address.trim }
      else none
    else none
  { iface := withType.1, vap := withType.2, ipv4 := ipv4, ipv6 := ipv6 }

/-- The identifying key used when logging a vap failure:
`vap.essid or vap.bssid`. -/
def vapKey (v : VapRec) : String :=
  if v.essid ≠ "" then v.essid else v.bssid

/-- Embeds `Command.import_interfaces` (lines 499-623).  A failed
interface save logs the record's mac and `continue`s, skipping that
record's sub-entities; failed sub-entity saves log and proceed.
Returns saved interfaces, vaps, IPv4 rows, IPv6 rows, and the log. -/
def import_interfaces (ipValid : String → Bool)
    (ifClean : IfaceRec → Bool) (vapClean : VapRec → Bool)
    (ipClean : IpRec → Bool) :
    List OldInterface →
    List IfaceRec × List VapRec × List IpRec × List IpRec × List LogEntry
  | [] => ([], [], [], [], [])
  | o :: rest =>
    let out := convert_old_interface ipValid o
    let tail := import_interfaces ipValid ifClean vapClean ipClean rest
    if ifClean out.iface then
      let vapStep : List VapRec × List LogEntry :=
        match out.vap with
        | none => ([], [])
        | some v =>
          if vapClean v then ([v], [])
          else ([], [⟨"Could not save vap", vapKey v⟩])
      let ip4Step : List IpRec × List LogEntry :=
        match out.ipv4 with
        | none => ([], [])
        | some a =>
          if ipClean a then ([a], [])
          else ([], [⟨"Could not save ipv4", a.address⟩])
      let ip6Step : List IpRec × List LogEntry :=
        match out.ipv6 with
        | none => ([], [])
        | some a =>
          if ipClean a then ([a], [])
          else ([], [⟨"Could not save ipv6", a.address⟩])
      (out.iface :: tail.1, vapStep.1 ++ tail.2.1, ip4Step.1 ++ tail.2.2.1,
        ip6Step.1 ++ tail.2.2.2.1,
        vapStep.2 ++ ip4Step.2 ++ ip6Step.2 ++ tail.2.2.2.2)
    else
      (tail.1, tail.2.1, tail.2.2.1, tail.2.2.2.1,
        ⟨"Could not save interface", out.iface.mac⟩ :: tail.2.2.2.2)

/-! ## Link phase (`import_links`) -/

/-- The wireless retype side effect of lines 637-640 and 645-649: an
endpoint interface that is not already wireless is retyped to wireless
and saved. -/
def retype_wireless (ifaces : List IfaceRec) (iid : Nat) : List IfaceRec :=
  ifaces.map (fun i =>
    if i.id == iid && !(i.itype == IfaceType.wireless) then
      { i with itype := .wireless }
    else i)

/-- The `Link(**{...})` construction of lines 658-673. -/
def build_link (a b : Nat) (old : OldLink) : LinkRec :=
  { id := old.id, interface_a := a, interface_b := b,
    status := "active", ltype := "radio", metric_type := "etx",
    metric_value := old.etx, dbm := old.dbm,
    min_rate := min old.sync_tx old.sync_rx,
    max_rate := max old.sync_tx old.sync_rx,
    access_level := if old.hide then some 3 else none }

/-- Embeds `Command.import_links` (lines 625-684).  Each endpoint is
looked up in the interface table; a found endpoint is retyped to
wireless even when the other endpoint is missing, a missing endpoint
logs the orphan link and skips the record.  Returns the updated
interface table, the saved links, and the log. -/
def import_links (cleanOk : LinkRec → Bool) :
    List IfaceRec → List OldLink →
    List IfaceRec × List LinkRec × List LogEntry
  | ifaces, [] => (ifaces, [], [])
  | ifaces, old :: rest =>
    let foundA := (ifaces.find? (fun i => i.id == old.from_interface_id)).isSome
    let ifaces1 :=
      if foundA then retype_wireless ifaces old.from_interface_id else ifaces
    let logA : List LogEntry :=
      if foundA then []
      else [⟨"Interface does not exist, probably link is orphan",
             toString old.from_interface_id⟩]
    let foundB := (ifaces1.find? (fun i => i.id == old.to_interface_id)).isSome
    let ifaces2 :=
      if foundB then retype_wireless ifaces1 old.to_interface_id else ifaces1
    let logB : List LogEntry :=
      if foundB then []
      else [⟨"Interface does not exist, probably link is orphan",
             toString old.to_interface_id⟩]
    if foundA && foundB then
      let link := build_link old.from_interface_id old.to_interface_id old
      let tail := import_links cleanOk ifaces2 rest
      if cleanOk link then
        (tail.1, link :: tail.2.1, logA ++ logB ++ tail.2.2)
      else
        (tail.1, tail.2.1,
          logA ++ logB ++ ⟨"Could not save link", toString old.id⟩ :: tail.2.2)
    else
      let tail := import_links cleanOk ifaces2 rest
      (tail.1, tail.2.1, logA ++ logB ++ tail.2.2)

/-! ## Contact phase (`import_contacts`) -/

/-- The `Inward(**{...})` construction of lines 697-709. -/
def build_contact (cid : Nat) (old : OldContact) : ContactRec :=
  { id := cid, content_type := "node", object_id := old.node_id,
    status := 1, from_name := old.from_name, from_email := old.from_email,
    message := old.message, ip := old.ip, user_agent := old.user_agent,
    accept_language := old.accept_language,
    added := old.date, updated := old.date }

/-- Embeds `Command.import_contacts` (lines 686-720), with `nextId` the
autoincrement counter of the contact-log table. -/
def import_contacts (cleanOk : ContactRec → Bool) :
    Nat → List OldContact → List ContactRec × List LogEntry
  | _, [] => ([], [])
  | nextId, old :: rest =>
    let contact := build_contact nextId old
    if cleanOk contact then
      let tail := import_contacts cleanOk (nextId + 1) rest
      (contact :: tail.1, tail.2)
    else
      let tail := import_contacts cleanOk nextId rest
      (tail.1, ⟨"Could not save contact log entry", toString old.id⟩ :: tail.2)

/-! ## The command entry point (`handle`) -/

/-- The external dependencies of one run, gathered as oracles: Django
`slugify`, the random password generator, the `netaddr` address check,
the `name__icontains` match, the two interactive decision points
(layer disambiguation and the final confirmation gate of
`confirm_operation_completed`), the `full_clean()`/`save()` outcome per
entity kind, and the autoincrement starting points of the tables whose
ids the database assigns. -/
structure Oracles where
  slug : String → String
  pw : String → String
  ipValid : String → Bool
  rpMatch : String → String → Bool
  decision : NodeRec → List Layer → LayerAnswer
  userClean : UserRec → Bool
  nodeClean : NodeRec → Bool
  devClean : DeviceRec → Bool
  ifClean : IfaceRec → Bool
  vapClean : VapRec → Bool
  ipClean : IpRec → Bool
  linkClean : LinkRec → Bool
  contactClean : ContactRec → Bool
  confirmKeep : Bool
  fkEnforced : Bool
  firstUserId : Nat
  firstRpId : Nat
  firstContactId : Nat

/-- The read-only legacy database. -/
structure LegacyDb where
  nodes : List OldNode
  devices : List OldDevice
  interfaces : List OldInterface
  links : List OldLink
  contacts : List OldContact

/-- Embeds `Command.handle` (lines 114-152) together with the
confirmation gate of `confirm_operation_completed` (lines 154-170):
validate the status mapping, then run the phases in order — users,
nodes, devices, interfaces (with sub-entities), links, contacts — and
finally either keep the run or roll it back via
`delete_imported_data`.  A `check_status_mapping` failure is caught by
the top-level handler with nothing journalled yet, so the rollback
deletes nothing; a phase-aborting exception (the `KeyError` paths of
the node phase, the `IntegrityError` of the devices phase) rolls back
what previous phases journalled — the aborted phase's own partial
saves are not journalled, because each phase assigns its `saved_*`
attribute only at phase end. -/
def handle (cfg : Cfg) (orc : Oracles) (db : LegacyDb) (st : Store) : Store :=
  match check_status_mapping cfg.status_mapping cfg.statuses with
  | .error _ => delete_imported_data emptyStore st
  | .ok mapping =>
    let uout := import_users orc.slug orc.pw orc.userClean
      (extract_users db.nodes) orc.firstUserId (st.users.map (fun u => u.username))
    let users := uout.1
    let usersDict := uout.2.1
    let st1 := { st with users := st.users ++ users }
    let j1 := { emptyStore with users := users }
    match import_nodes cfg mapping usersDict orc.decision orc.nodeClean db.nodes with
    | .error _ => delete_imported_data j1 st1
    | .ok (nodes, _) =>
      let st2 := { st1 with nodes := st1.nodes ++ nodes }
      match import_devices orc.devClean orc.rpMatch orc.fkEnforced
        st2.routing_protocols orc.firstRpId db.devices with
      | .error _ =>
        delete_imported_data { emptyStore with users := users, nodes := nodes } st2
      | .ok dout =>
        let devices := dout.1
        let rpsAdded := dout.2.2.1
        let st3 := { st2 with devices := st2.devices ++ devices,
                              routing_protocols := dout.2.1 }
        let iout := import_interfaces orc.ipValid orc.ifClean orc.vapClean
          orc.ipClean db.interfaces
        let st4 := { st3 with interfaces := st3.interfaces ++ iout.1,
                              vaps := st3.vaps ++ iout.2.1,
                              ipv4s := st3.ipv4s ++ iout.2.2.1,
                              ipv6s := st3.ipv6s ++ iout.2.2.2.1 }
        let lout := import_links orc.linkClean st4.interfaces db.links
        let st5 := { st4 with interfaces := lout.1,
                              links := st4.links ++ lout.2.1 }
        let cout := import_contacts orc.contactClean orc.firstContactId db.contacts
        let st6 := { st5 with contacts := st5.contacts ++ cout.1 }
        let journal : Store :=
          { users := users, nodes := nodes, devices := devices,
            routing_protocols := rpsAdded, interfaces := iout.1,
            vaps := iout.2.1, ipv4s := iout.2.2.1, ipv6s := iout.2.2.2.1,
            links := lout.2.1, contacts := cout.1 }
        if orc.confirmKeep then st6 else delete_imported_data journal st6

/-! ## CitySDK Mobility synchronizer (`CitySdkMobility.py`) -/

/-- The local node as seen by the adapter.  Python truthiness guards
each attribute: `status`/`user` are nullable foreign keys (modelled
`Option`), empty strings are falsy, and a zero elevation is falsy.
`geom` is the GeoJSON rendering of `node.geometry`, `externalId` the
previously recorded provider-side id (`node.external.external_id`,
absent when no mapping row exists). -/
structure CdkNode where
  name : String
  slug : String
  statusSlug : Option String
  description : String
  address : String
  elev : Option Int
  ownerName : Option String
  dataPairs : List (String × String)
  geom : String
  externalId : Option String

/-- The wire envelope built by `convert_format`: the `create.params`
block and the single entry of the `nodes` array, whose identifier is
either a fresh local `id` (create) or the remote `cdk_id` (update). -/
structure Envelope where
  create_type : String
  srid : Nat
  name : String
  geom : String
  data : List (String × String)
  idField : Option String
  cdkId : Option String
  deriving DecidableEq

/-- The data-block construction of `convert_format` (lines 106-112):
the node's attribute map extended with status, description, address,
elevation and owner name, each included only when truthy. -/
def convert_data (node : CdkNode) : List (String × String) :=
  let d0 := node.dataPairs
  let d1 := match node.statusSlug with
            | some s => dictSet d0 "status" s
            | none => d0
  let d2 := if node.description ≠ "" then dictSet d1 "description" node.description else d1
  let d3 := if node.address ≠ "" then dictSet d2 "address" node.address else d2
  let d4 := match node.elev with
            | some e => if e == 0 then d3 else dictSet d3 "elevation" (toString e)
            | none => d3
  match node.ownerName with
  | some o => dictSet d4 "owner" o
  | none => d4

/-- The envelope of lines 114-128 before the identifier field is
chosen. -/
def convert_base (node : CdkNode) (create_type : String) : Envelope :=
  { create_type := create_type, srid := 4326, name := node.name,
    geom := node.geom, data := convert_data node,
    idField := none, cdkId := none }

/-- Embeds `CitySdkMobilityMixin.convert_format` (lines 103-135): start
from the node's attribute map, add status, description, address,
elevation and owner name when truthy, then wrap name, geometry and
data; `create` mode sets the node entry's `id` to the local slug,
`update` mode sets `cdk_id` to the recorded external id (raising
`AttributeError` when none was recorded). -/
def convert_format (node : CdkNode) (create_type : String) :
    Except PyErr Envelope :=
  let base := convert_base node create_type
  if create_type == "create" then
    .ok { base with idField := some node.slug }
  else if create_type == "update" then
    match node.externalId with
    | none => .error .attributeError
    | some ext => .ok { base with cdkId := some ext }
  else .ok base

/-- One HTTP response from the provider: status code, whether the body
is well-formed JSON, the session token carried by a successful
authentication body, and the raw content echoed into logs. -/
structure CdkResponse where
  status : Nat
  parses : Bool
  token : String
  content : String
  deriving DecidableEq

/-- The remote side of one adapter call: the outcome of the
authentication request and of the upsert/delete request (`none` models
a raised transport exception). -/
structure CdkEnv where
  authOutcome : Option CdkResponse
  putOutcome : Option CdkResponse
  releaseStatus : Nat

instance {ε α : Type} [DecidableEq ε] [DecidableEq α] (x y : Except ε α) :
    Decidable (x = y) :=
  match x, y with
  | .ok a, .ok b => if h : a = b then .isTrue (by simp [h]) else .isFalse (by simp [h])
  | .error a, .error b => if h : a = b then .isTrue (by simp [h]) else .isFalse (by simp [h])
  | .ok _, .error _ => .isFalse (by simp)
  | .error _, .ok _ => .isFalse (by simp)

/-- Observable outcome of one adapter call: the returned value or the
exception crossing the boundary, the number of sessions acquired and
of `release_session` calls performed, and the error/info log. -/
structure CallTrace where
  result : Except PyErr Bool
  acquires : Nat
  releases : Nat
  logged : List String
  deriving DecidableEq

/-- Embeds `CitySdkMobilityMixin.get_session` (lines 53-86): a
transport failure or a non-200 authentication response raises
`ImproperlyConfigured`; a malformed 200 body raises `JSONDecodeError`
at `json.loads`; otherwise the session token is returned. -/
def get_session (env : CdkEnv) : Except PyErr String :=
  match env.authOutcome with
  | none => .error (.improperlyConfigured "API Authentication Error")
  | some r =>
    if r.status ≠ 200 then .error (.improperlyConfigured r.content)
    else if !r.parses then .error .jsonDecodeError
    else .ok r.token

/-- Embeds `CitySdkMobilityMixin.release_session` (lines 88-101):
reports whether the release endpoint answered 200. -/
def release_session (env : CdkEnv) (_session : String) : Bool :=
  env.releaseStatus == 200

/-- Embeds `CitySdkMobilityMixin.add` (lines 137-171): acquire a
session, convert the node in create mode, PUT it, release the session,
then report `False` after logging on a non-200 response or a malformed
200 body, and `True` otherwise.  A raised `get_session`, conversion or
transport exception propagates; the session is released only on the
paths that obtained a response, since the source has no `try/finally`
around the request. -/
def add (node : CdkNode) (env : CdkEnv) : CallTrace :=
  match get_session env with
  | .error e => { result := .error e, acquires := 0, releases := 0, logged := [] }
  | .ok session =>
    match convert_format node "create" with
    | .error e => { result := .error e, acquires := 1, releases := 0, logged := [] }
    | .ok _record =>
      match env.putOutcome with
      | none =>
        { result := .error .requestException, acquires := 1, releases := 0,
          logged := [] }
      | some resp =>
        let _released := release_session env session
        if resp.status ≠ 200 then
          { result := .ok false, acquires := 1, releases := 1,
            logged := ["ERROR while creating " ++ node.name] }
        else if !resp.parses then
          { result := .ok false, acquires := 1, releases := 1,
            logged := ["ERROR: JSONDecodeError"] }
        else
          { result := .ok true, acquires := 1, releases := 1,
            logged := ["New record " ++ node.name ++ " saved in CitySDK"] }

/-- Embeds `CitySdkMobilityMixin.change` (lines 173-207): as `add`, but
converting in update mode (so a node without a recorded external id
raises before the request) and PUTting the updated record. -/
def change (node : CdkNode) (env : CdkEnv) : CallTrace :=
  match get_session env with
  | .error e => { result := .error e, acquires := 0, releases := 0, logged := [] }
  | .ok session =>
    match convert_format node "update" with
    | .error e => { result := .error e, acquires := 1, releases := 0, logged := [] }
    | .ok _record =>
      match env.putOutcome with
      | none =>
        { result := .error .requestException, acquires := 1, releases := 0,
          logged := [] }
      | some resp =>
        let _released := release_session env session
        if resp.status ≠ 200 then
          { result := .ok false, acquires := 1, releases := 1,
            logged := ["ERROR while updating record " ++ node.name] }
        else if !resp.parses then
          { result := .ok false, acquires := 1, releases := 1,
            logged := ["JSONDecodeError"] }
        else
          { result := .ok true, acquires := 1, releases := 1,
            logged := ["Updated record " ++ node.name] }

/-- Embeds `CitySdkMobilityMixin.delete` (lines 209-237): acquire a
session, DELETE the record, release the session, and report success
only on a 200 response; the delete body is never parsed. -/
def delete (_external_id : String) (env : CdkEnv) : CallTrace :=
  match get_session env with
  | .error e => { result := .error e, acquires := 0, releases := 0, logged := [] }
  | .ok session =>
    match env.putOutcome with
    | none =>
      { result := .error .requestException, acquires := 1, releases := 0,
        logged := [] }
    | some resp =>
      let _released := release_session env session
      if resp.status ≠ 200 then
        { result := .ok false, acquires := 1, releases := 1,
          logged := ["Failed to delete a record through the CitySDK HTTP API"] }
      else
        { result := .ok true, acquires := 1, releases := 1,
          logged := ["Deleted a record through the CitySDK HTTP API"] }

/-- Embeds `CitySdkMobilityMixin.clean` (lines 44-51): acquire a
session and release it immediately, to verify authentication works. -/
def clean (env : CdkEnv) : CallTrace :=
  match get_session env with
  | .error e => { result := .error e, acquires := 0, releases := 0, logged := [] }
  | .ok session =>
    let released := release_session env session
    { result := .ok released, acquires := 1, releases := 1, logged := [] }

/-! ## Concrete fixtures used by closed theorems -/

/-- A validated status mapping: legacy code `"a"` maps to canonical
status id 2, the designated default entry to id 1. -/
def c1mapping : List (String × Nat) := [("a", 2), ("default", 1)]

/-- A legacy node with status code `"a"`, owned by `x@example.org`. -/
def c1old : OldNode :=
  { id := 1, email := "x@example.org", owner := "X", name := "n1",
    slug := "n1", lat := 0, lng := 0, alt := 0, description := "",
    notes := "", added := 0, updated := 0, status := "a",
    postal_code := "" }

/-- A configuration with a status mapping configured and the layers app
absent, so the node phase runs the status branch on every record. -/
def c1cfg : Cfg :=
  { status_mapping := some [("a", "active"), ("default", "planned")],
    statuses := [⟨2, "active"⟩, ⟨1, "planned"⟩], default_layer := none,
    layerAppInstalled := false, layers := [] }

/-- A concrete node carrying every optional attribute, used to witness
hypothesis-bearing theorems about the adapter. -/
def cdkNode0 : CdkNode :=
  { name := "Fusolab", slug := "fusolab",
    statusSlug := some "active", description := "d", address := "via x",
    elev := some 25, ownerName := some "Jo Doe",
    dataPairs := [("k", "v")], geom := "g1", externalId := some "cdk77" }

/-- A successful authentication response carrying a session token. -/
def respOk : CdkResponse := ⟨200, true, "tok", "ok"⟩

/-- A provider failure response (HTTP 500). -/
def resp500 : CdkResponse := ⟨500, false, "", "err"⟩

/-- A 2xx response whose body is not valid JSON. -/
def resp200bad : CdkResponse := ⟨200, false, "", "notjson"⟩

/-- Remote environment: authentication succeeds, the upsert/delete
request returns HTTP 500. -/
def env500 : CdkEnv := ⟨some respOk, some resp500, 200⟩

/-- Remote environment: authentication succeeds, the upsert request
returns a malformed 2xx body. -/
def env200bad : CdkEnv := ⟨some respOk, some resp200bad, 200⟩

/-- Remote environment: authentication succeeds, the upsert/delete
request raises a transport exception. -/
def envRaise : CdkEnv := ⟨some respOk, none, 200⟩

/-- A concrete zone containing exactly the points with first
coordinate 0. -/
def zoneA : Layer := ⟨11, fun p => p.1 == 0⟩

/-- A legacy node located inside `zoneA`. -/
def c5oldIn : OldNode :=
  { id := 21, email := "e@x", owner := "E", name := "inA", slug := "in-a",
    lat := 0, lng := 0, alt := 0, description := "", notes := "",
    added := 0, updated := 0, status := "a", postal_code := "" }

/-- A legacy node located outside every zone. -/
def c5oldOut : OldNode :=
  { id := 22, email := "e@x", owner := "E", name := "outA", slug := "out-a",
    lat := 5, lng := 5, alt := 0, description := "", notes := "",
    added := 0, updated := 0, status := "a", postal_code := "" }

/-- A configuration with the layers app installed, one zone and no
default layer. -/
def c5cfg : Cfg :=
  { status_mapping := none, statuses := [], default_layer := none,
    layerAppInstalled := true, layers := [zoneA] }

/-- A run's oracles with every validation succeeding and interactive
answers fixed. -/
def orc0 : Oracles :=
  { slug := id, pw := fun _ => "pw", ipValid := fun _ => true,
    rpMatch := fun a b => a == b, decision := fun _ _ => .discard,
    userClean := fun _ => true, nodeClean := fun _ => true,
    devClean := fun _ => true, ifClean := fun _ => true,
    vapClean := fun _ => true, ipClean := fun _ => true,
    linkClean := fun _ => true, contactClean := fun _ => true,
    confirmKeep := true, fkEnforced := false, firstUserId := 1,
    firstRpId := 1, firstContactId := 1 }

/-- A legacy device whose converted row fails validation. -/
def oldDevBad : OldDevice :=
  { id := 31, node_id := 2, name := "bad", description := "",
    dtype := "t", cname := "c", routing_protocol := "olsr",
    added := 0, updated := 0 }

/-- A legacy device whose converted row passes validation. -/
def oldDevGood : OldDevice :=
  { id := 32, node_id := 2, name := "good", description := "",
    dtype := "t", cname := "c", routing_protocol := "olsr",
    added := 0, updated := 0 }

/-- A one-interface table for the link-phase witness. -/
def linkIfaces : List IfaceRec :=
  [{ id := 5, device_id := 3, mac := "m", name := "i", added := 0,
     updated := 0, itype := .wireless, standard := none, duplex := none,
     mode := none, channel := none, data := [] }]

/-- A legacy link between the interface of `linkIfaces` and itself. -/
def oldLink0 : OldLink :=
  { id := 41, from_interface_id := 5, to_interface_id := 5,
    sync_tx := 1, sync_rx := 2, etx := 0, dbm := 0, hide := false }

/-- A legacy contact-log row for the contact-phase witness. -/
def oldContact0 : OldContact :=
  { id := 51, node_id := 2, from_name := "f", from_email := "f@x",
    message := "m", ip := "127.0.0.1", user_agent := "ua",
    accept_language := "en", date := 0 }

/-- An empty legacy database. -/
def db0 : LegacyDb := ⟨[], [], [], [], []⟩

/-- A configuration whose status mapping references a slug absent from
the canonical statuses. -/
def c4cfgBad : Cfg :=
  { status_mapping := some [("x", "missing")],
    statuses := [⟨1, "active"⟩], default_layer := none,
    layerAppInstalled := false, layers := [] }

/-- A run journal holding one committed entity of every kind, with the
sub-entities and the link attached to the journalled interface. -/
def c2journal : Store :=
  { users := [⟨1, "ux", "pw", "U", "", "u@x", true⟩],
    nodes := [{ id := 2, user_id := 1, name := "n", slug := "n",
                geometry := (0, 0), elev := 0, description := "",
                notes := "", added := 0, updated := 0, data := [],
                layer_id := none, status_id := none }],
    devices := [{ id := 3, node_id := 2, dtype := "radio", name := "d",
                  description := "", added := 0, updated := 0, data := [] }],
    routing_protocols := [⟨4, "olsr"⟩],
    interfaces := [{ id := 5, device_id := 3, mac := "m", name := "i",
                     added := 0, updated := 0, itype := .wireless,
                     standard := none, duplex := none, mode := none,
                     channel := none, data := [] }],
    vaps := [⟨5, "e", "e"⟩],
    ipv4s := [⟨5, "10.0.0.1"⟩],
    ipv6s := [⟨5, "fe80--1"⟩],
    links := [{ id := 6, interface_a := 5, interface_b := 5,
                status := "active", ltype := "radio", metric_type := "etx",
                metric_value := 0, dbm := 0, min_rate := 0, max_rate := 0,
                access_level := none }],
    contacts := [{ id := 7, content_type := "node", object_id := 2,
                   status := 1, from_name := "", from_email := "",
                   message := "", ip := "", user_agent := "",
                   accept_language := "", added := 0, updated := 0 }] }

/-- A concrete node with no recorded external id: `node.external` is
absent, so update-mode conversion raises `AttributeError`. -/
def cdkNodeNoExt : CdkNode :=
  { name := "Lab2", slug := "lab2", statusSlug := none, description := "",
    address := "", elev := none, ownerName := none, dataPairs := [],
    geom := "g2", externalId := none }

/-- A concrete legacy wireless interface whose essid and bssid
differ. -/
def oldIface0 : OldInterface :=
  { id := 9, device_id := 3, mac_address := "00:11:22:33:44:55",
    cname := "wifi0", itype := "wifi", wireless_mode := "ap",
    wireless_channel := "6", essid := "myssid", bssid := "aa:bb",
    ipv4_address := "", ipv6_address := "", added := 0, updated := 0,
    type_display := "wifi" }

/-- A concrete legacy ethernet interface. -/
def oldIfaceEth : OldInterface :=
  { id := 7, device_id := 3, mac_address := "00:00:00:00:00:07",
    cname := "eth0", itype := "eth", wireless_mode := "",
    wireless_channel := "", essid := "", bssid := "",
    ipv4_address := "", ipv6_address := "", added := 0, updated := 0,
    type_display := "eth" }

/-- A second concrete legacy ethernet interface. -/
def oldIfaceEth2 : OldInterface :=
  { id := 8, device_id := 4, mac_address := "00:00:00:00:00:08",
    cname := "eth1", itype := "eth", wireless_mode := "",
    wireless_channel := "", essid := "", bssid := "",
    ipv4_address := "", ipv6_address := "", added := 0, updated := 0,
    type_display := "eth" }

/-! ## C1 -/

/-- C1: refuted on the code — `Command.get_status` computes
`status_mapping.get(value, status_mapping['default'])` but never
returns it, so it yields `None` for every legacy code.  At the mapping
`{a ↦ 2, default ↦ 1}`, the claimed result for code `"a"` is 2 and for
an unmapped code 1 (both delivered by the spec-modelled
`get_status_spec`), yet the code returns `None`, and the node persisted
by the node phase under this configured mapping carries
`status_id = None` instead of the resolved canonical id. -/
theorem c1_get_status_never_returns :
    get_status c1mapping "a" = .ok none ∧
    get_status_spec c1mapping "a" = some 2 ∧
    get_status_spec c1mapping "zz" = some 1 ∧
    import_nodes c1cfg (some c1mapping) [("x@example.org", some 7)]
        (fun _ _ => .discard) (fun _ => true) [c1old] =
      .ok ([build_node 7 c1old], []) ∧
    (build_node 7 c1old).status_id = none := by
  refine ⟨rfl, rfl, rfl, ?_, rfl⟩
  decide

/-! ## C9 -/

/-- The `create`-mode result of `convert_format`. -/
theorem convert_format_create (node : CdkNode) :
    convert_format node "create" =
      .ok { convert_base node "create" with idField := some node.slug } := by
  simp [convert_format]

/-- The `update`-mode result of `convert_format` for a node with a
recorded external id. -/
theorem convert_format_update (node : CdkNode) (ext : String)
    (h : node.externalId = some ext) :
    convert_format node "update" =
      .ok { convert_base node "update" with cdkId := some ext } := by
  simp [convert_format, h]

/-- C9: confirmed — for every node with a recorded external id,
`convert_format` in create mode and in update mode produce node
entries with the same name, the same geometry and the same data
fields, differing only in the identifier: create mode sets the entry's
`id` to the local slug (and no `cdk_id`), update mode sets `cdk_id` to
the previously recorded external id (and no `id`). -/
theorem c9_convert_format_create_update (node : CdkNode) (ext : String)
    (h : node.externalId = some ext) :
    ∃ e1 e2 : Envelope,
      convert_format node "create" = .ok e1 ∧
      convert_format node "update" = .ok e2 ∧
      e1.name = e2.name ∧ e1.geom = e2.geom ∧ e1.data = e2.data ∧
      e1.idField = some node.slug ∧ e1.cdkId = none ∧
      e2.cdkId = some ext ∧ e2.idField = none ∧
      e1.create_type = "create" ∧ e2.create_type = "update" := by
  exact ⟨_, _, convert_format_create node, convert_format_update node ext h,
    rfl, rfl, rfl, rfl, rfl, rfl, rfl, rfl, rfl⟩

/-- Witness for C9 at a concrete node with a recorded external id. -/
theorem c9_convert_format_create_update_witness :
    ∃ e1 e2 : Envelope,
      convert_format cdkNode0 "create" = .ok e1 ∧
      convert_format cdkNode0 "update" = .ok e2 ∧
      e1.name = e2.name ∧ e1.geom = e2.geom ∧ e1.data = e2.data ∧
      e1.idField = some cdkNode0.slug ∧ e1.cdkId = none ∧
      e2.cdkId = some "cdk77" ∧ e2.idField = none ∧
      e1.create_type = "create" ∧ e2.create_type = "update" :=
  c9_convert_format_create_update cdkNode0 "cdk77" rfl

/-! ## C10 -/

/-- C10: confirmed — for a legacy wireless interface with an essid or
a bssid, the `Vap` built by the interface phase has both its essid
field and its bssid field set to the legacy essid (line 537 passes
`old_interface.essid` as `bssid`); the legacy bssid value reaches only
the interface's attribute map, never the `Vap` record. -/
theorem c10_vap_both_fields_essid (ipv : String → Bool) (o : OldInterface)
    (hw : o.itype = "wifi") (h : o.essid ≠ "" ∨ o.bssid ≠ "") :
    (convert_old_interface ipv o).vap =
      some { interface_id := o.id, essid := o.essid, bssid := o.essid } ∧
    (o.bssid ≠ "" → ("bssid", o.bssid) ∈ (convert_old_interface ipv o).iface.data) ∧
    (o.bssid ≠ o.essid → ∀ v, (convert_old_interface ipv o).vap = some v →
      v.essid ≠ o.bssid ∧ v.bssid ≠ o.bssid) := by
  have hvap : (convert_old_interface ipv o).vap =
      some { interface_id := o.id, essid := o.essid, bssid := o.essid } := by
    simp [convert_old_interface, hw, h]
  refine ⟨hvap, ?_, ?_⟩
  · intro hb
    by_cases he : o.essid = "" <;>
      simp [convert_old_interface, hw, he, hb, dictSet]
  · intro hne v hv
    rw [hvap] at hv
    cases hv
    exact ⟨fun hc => hne hc.symm, fun hc => hne hc.symm⟩

/-! ## C8 -/

/-- C8: confirmed — once a session is acquired and the remote request
yields a response, a non-2xx status makes `add`, `change` and `delete`
log and return `False` (a value, not an exception), and a 2xx response
with a malformed payload likewise makes `add` and `change` return
`False`; no exception crosses the adapter boundary on these paths. -/
theorem c8_non2xx_returns_false (node : CdkNode) (eid : String)
    (env : CdkEnv) (tok : String) (resp : CdkResponse)
    (hs : get_session env = .ok tok) (hp : env.putOutcome = some resp) :
    (resp.status ≠ 200 →
      ((add node env).result = .ok false ∧ (add node env).logged ≠ []) ∧
      (∀ ext, node.externalId = some ext →
        (change node env).result = .ok false ∧ (change node env).logged ≠ []) ∧
      ((delete eid env).result = .ok false ∧ (delete eid env).logged ≠ [])) ∧
    (resp.status = 200 → resp.parses = false →
      (add node env).result = .ok false ∧
      (∀ ext, node.externalId = some ext →
        (change node env).result = .ok false)) := by
  constructor
  · intro hne
    refine ⟨?_, ?_, ?_⟩
    · simp [add, hs, hp, convert_format_create, hne]
    · intro ext hext
      simp [change, hs, hp, convert_format_update node ext hext, hne]
    · simp [delete, hs, hp, hne]
  · intro h200 hpar
    constructor
    · simp [add, hs, hp, convert_format_create, h200, hpar]
    · intro ext hext
      simp [change, hs, hp, convert_format_update node ext hext, h200, hpar]

/-- Witness for C8: a concrete HTTP 500 and a concrete malformed 2xx
response, each applied to the adapter operations. -/
theorem c8_non2xx_returns_false_witness :
    ((add cdkNode0 env500).result = .ok false ∧
      (add cdkNode0 env500).logged ≠ []) ∧
    (change cdkNode0 env500).result = .ok false ∧
    (delete "cdk77" env500).result = .ok false ∧
    (add cdkNode0 env200bad).result = .ok false ∧
    (change cdkNode0 env200bad).result = .ok false := by
  have h5 := c8_non2xx_returns_false cdkNode0 "cdk77" env500 "tok" resp500
    (by decide) rfl
  have hb := c8_non2xx_returns_false cdkNode0 "cdk77" env200bad "tok" resp200bad
    (by decide) rfl
  have h5n := h5.1 (by decide)
  have hbn := hb.2 rfl rfl
  exact ⟨h5n.1, (h5n.2.1 "cdk77" rfl).1, h5n.2.2.1, hbn.1, hbn.2 "cdk77" rfl⟩

/-! ## C3 -/

/-- The `update`-mode conversion of a node with no recorded external
id raises `AttributeError`. -/
theorem convert_format_update_none (node : CdkNode)
    (h : node.externalId = none) :
    convert_format node "update" = .error .attributeError := by
  simp [convert_format, h]

/-- C3: refuted on the code — `add` acquires a session and, when the
remote PUT raises a transport exception, propagates the exception
without ever calling `release_session`: the source has no
`try/finally`, so the failure exit path skips the release.  This
closed run exhibits one acquired and zero released sessions. -/
theorem c3_session_release_counterexample :
    (add cdkNode0 envRaise).acquires = 1 ∧
    (add cdkNode0 envRaise).releases = 0 ∧
    (add cdkNode0 envRaise).result = .error .requestException := by
  exact ⟨rfl, rfl, rfl⟩

/-- C3 amended: for every adapter call that acquires a session, the
session is released exactly once on every exit path **that obtains a
response from the remote request** (success, non-2xx and malformed
payload alike), and in `clean`; on the paths where the remote request
or the update-mode format conversion raises, the exception propagates
and the session is not released. -/
theorem c3_session_release_amended (node : CdkNode) (eid : String)
    (env : CdkEnv) (tok : String) (hs : get_session env = .ok tok) :
    (∀ resp, env.putOutcome = some resp →
      ((add node env).acquires = 1 ∧ (add node env).releases = 1) ∧
      (∀ ext, node.externalId = some ext →
        (change node env).acquires = 1 ∧ (change node env).releases = 1) ∧
      ((delete eid env).acquires = 1 ∧ (delete eid env).releases = 1)) ∧
    ((clean env).acquires = 1 ∧ (clean env).releases = 1) ∧
    (env.putOutcome = none →
      ((add node env).releases = 0 ∧
        (∃ e, (add node env).result = .error e)) ∧
      ((delete eid env).releases = 0 ∧
        (∃ e, (delete eid env).result = .error e))) ∧
    (node.externalId = none →
      (change node env).releases = 0 ∧
      (∃ e, (change node env).result = .error e)) := by
  refine ⟨?_, ?_, ?_, ?_⟩
  · intro resp hp
    refine ⟨?_, ?_, ?_⟩
    · by_cases hr : resp.status = 200 <;> by_cases hq : resp.parses <;>
        simp [add, hs, hp, convert_format_create, hr, hq]
    · intro ext hext
      by_cases hr : resp.status = 200 <;> by_cases hq : resp.parses <;>
        simp [change, hs, hp, convert_format_update node ext hext, hr, hq]
    · by_cases hr : resp.status = 200 <;> simp [delete, hs, hp, hr]
  · simp [clean, hs]
  · intro hp
    constructor
    · constructor
      · simp [add, hs, hp, convert_format_create]
      · exact ⟨.requestException, by simp [add, hs, hp, convert_format_create]⟩
    · constructor
      · simp [delete, hs, hp]
      · exact ⟨.requestException, by simp [delete, hs, hp]⟩
  · intro hext
    constructor
    · simp [change, hs, convert_format_update_none node hext]
    · exact ⟨.attributeError, by simp [change, hs, convert_format_update_none node hext]⟩

/-- Witness for the amended C3: concrete runs on the response path,
the transport-exception path, the missing-external-id path and
`clean`. -/
theorem c3_session_release_amended_witness :
    ((add cdkNode0 env500).acquires = 1 ∧ (add cdkNode0 env500).releases = 1) ∧
    ((delete "cdk77" env500).acquires = 1 ∧ (delete "cdk77" env500).releases = 1) ∧
    ((clean env500).acquires = 1 ∧ (clean env500).releases = 1) ∧
    (add cdkNode0 envRaise).releases = 0 ∧
    (change cdkNodeNoExt env500).releases = 0 := by
  have h1 := c3_session_release_amended cdkNode0 "cdk77" env500 "tok" (by decide)
  have h2 := c3_session_release_amended cdkNode0 "cdk77" envRaise "tok" (by decide)
  have h3 := c3_session_release_amended cdkNodeNoExt "cdk77" env500 "tok" (by decide)
  have hresp := h1.1 resp500 rfl
  exact ⟨hresp.1, hresp.2.2, h1.2.1, (h2.2.2.1 rfl).1.1, (h3.2.2.2 rfl).1⟩

/-! ## C5 -/

/-- C5: confirmed — a node point contained in exactly one zone is
assigned that zone without invoking the decision provider; a point in
zero zones is assigned the configured default zone when one exists and
otherwise the node is discarded: the node phase writes the discard
message and persists nothing for that record. -/
theorem c5_zone_resolution :
    (∀ layers d dec (node : NodeRec) z,
      intersecting_layers layers node = [z] →
      resolve_layer layers d dec node = (.assigned z.id, false)) ∧
    (∀ layers dec (node : NodeRec),
      intersecting_layers layers node = [] →
      resolve_layer layers none dec node = (.discarded, false)) ∧
    (∀ layers dec (node : NodeRec) d,
      intersecting_layers layers node = [] →
      resolve_layer layers (some d) dec node = (.assigned d, false)) ∧
    (∀ cfg mapping usersDict dec cleanOk (old : OldNode) uid,
      cfg.layerAppInstalled = true → cfg.default_layer = none →
      old.status ≠ "u" →
      usersDict.lookup old.email = some (some uid) →
      intersecting_layers cfg.layers (build_node uid old) = [] →
      import_node_one cfg mapping usersDict dec cleanOk old =
        .ok (none, [⟨"Node discarded because is not contained in any specified layer and no default layer specified", old.name⟩])) := by
  refine ⟨?_, ?_, ?_, ?_⟩
  · intro layers d dec node z h
    simp [resolve_layer, h]
  · intro layers dec node h
    simp [resolve_layer, h]
  · intro layers dec node d h
    simp [resolve_layer, h]
  · intro cfg mapping usersDict dec cleanOk old uid happ hdef hst hlook hint
    have hbeq : (old.status == "u") = false := by
      simp [hst]
    have hres : resolve_layer cfg.layers cfg.default_layer dec
        (build_node uid old) = (.discarded, false) := by
      simp [resolve_layer, hint, hdef]
    simp only [import_node_one, node_candidate, hbeq, Bool.false_eq_true,
      if_false, hlook, happ, if_true, hres]
    simp [build_node]

/-- Witness for C5: a point inside exactly `zoneA`, a point inside no
zone without and with a configured default, and the discarded node's
phase outcome. -/
theorem c5_zone_resolution_witness :
    resolve_layer [zoneA] none (fun _ _ => .discard)
        (build_node 1 c5oldIn) = (.assigned 11, false) ∧
    resolve_layer [zoneA] none (fun _ _ => .discard)
        (build_node 1 c5oldOut) = (.discarded, false) ∧
    resolve_layer [zoneA] (some 9) (fun _ _ => .discard)
        (build_node 1 c5oldOut) = (.assigned 9, false) ∧
    import_node_one c5cfg none [("e@x", some 1)] (fun _ _ => .discard)
        (fun _ => true) c5oldOut =
      .ok (none, [⟨"Node discarded because is not contained in any specified layer and no default layer specified", "outA"⟩]) := by
  have h := c5_zone_resolution
  exact ⟨h.1 [zoneA] none _ _ zoneA rfl,
    h.2.1 [zoneA] _ _ rfl,
    h.2.2.1 [zoneA] _ _ 9 rfl,
    h.2.2.2 c5cfg none [("e@x", some 1)] _ _ c5oldOut 1 rfl rfl
      (by decide) rfl rfl⟩

/-! ## C4 -/

/-- An entry whose target slug names no canonical status makes the
validation loop raise `ImproperlyConfigured`. -/
theorem check_go_error (statuses : List CStatus) :
    ∀ m : List (String × String),
      (∃ p ∈ m, ∀ c ∈ statuses, c.slug ≠ p.2) →
      ∃ e, check_status_mapping_go statuses m = .error e := by
  intro m
  induction m with
  | nil => rintro ⟨p, hp, _⟩; cases hp
  | cons q rest ih =>
    rintro ⟨p, hp, hmiss⟩
    rcases List.mem_cons.mp hp with hq | hrest
    · subst hq
      have hfind : statuses.find? (fun c => c.slug == p.2) = none := by
        rw [List.find?_eq_none]
        intro c hc
        simp [hmiss c hc]
      exact ⟨.improperlyConfigured p.2, by simp [check_status_mapping_go, hfind]⟩
    · obtain ⟨e, he⟩ := ih ⟨p, hrest, hmiss⟩
      unfold check_status_mapping_go
      cases hfind : statuses.find? (fun c => c.slug == q.2) with
      | none => exact ⟨_, rfl⟩
      | some c => exact ⟨e, by simp [he]⟩

/-- When every target slug exists, the validation loop substitutes the
canonical id of the first status carrying each slug. -/
theorem check_go_ok (statuses : List CStatus) :
    ∀ m : List (String × String),
      (∀ p ∈ m, ∃ c ∈ statuses, c.slug = p.2) →
      check_status_mapping_go statuses m =
        .ok (m.map fun p => (p.1, statusIdOf statuses p.2)) := by
  intro m
  induction m with
  | nil => intro _; rfl
  | cons q rest ih =>
    intro h
    obtain ⟨c, hc, hcs⟩ := h q (List.mem_cons_self q rest)
    have hsome : (statuses.find? (fun c => c.slug == q.2)).isSome := by
      rw [List.find?_isSome]
      exact ⟨c, hc, by simp [hcs]⟩
    obtain ⟨c', hc'⟩ := Option.isSome_iff_exists.mp hsome
    have hrest := ih (fun p hp => h p (List.mem_cons_of_mem q hp))
    simp [check_status_mapping_go, hc', hrest, statusIdOf]

/-- C4: confirmed — a status mapping whose target value names no
canonical status makes `check_status_mapping` raise
`ImproperlyConfigured`, and `handle` (which validates the mapping
before any phase) leaves the store exactly as it was: no user, node,
device, interface, link or contact is written.  When every target
exists, validation replaces each target slug with the id of the
canonical status carrying it. -/
theorem c4_status_mapping_validation :
    (∀ (m : List (String × String)) (cfg : Cfg) (orc : Oracles)
        (db : LegacyDb) (st : Store),
      cfg.status_mapping = some m →
      (∃ p ∈ m, ∀ c ∈ cfg.statuses, c.slug ≠ p.2) →
      (∃ e, check_status_mapping (some m) cfg.statuses = .error e) ∧
      handle cfg orc db st = st) ∧
    (∀ (m : List (String × String)) (statuses : List CStatus),
      (∀ p ∈ m, ∃ c ∈ statuses, c.slug = p.2) →
      check_status_mapping (some m) statuses =
        .ok (some (m.map fun p => (p.1, statusIdOf statuses p.2)))) := by
  constructor
  · intro m cfg orc db st hcfg hmiss
    have hm : m ≠ [] := by
      rintro rfl
      obtain ⟨p, hp, _⟩ := hmiss
      cases hp
    obtain ⟨e, he⟩ := check_go_error cfg.statuses m hmiss
    have hcheck : check_status_mapping (some m) cfg.statuses = .error e := by
      simp [check_status_mapping, hm, he]
    refine ⟨⟨e, hcheck⟩, ?_⟩
    unfold handle
    rw [hcfg, hcheck]
    rfl
  · intro m statuses h
    rcases hm : m with _ | ⟨q, rest⟩
    · rfl
    · have := check_go_ok statuses m (hm ▸ h)
      rw [hm] at this
      simp [check_status_mapping, this]

/-- Witness for C4: a mapping referencing the missing slug
`"missing"` aborts a whole run on the empty store, and a valid mapping
is rewritten to canonical ids. -/
theorem c4_status_mapping_validation_witness :
    (∃ e, check_status_mapping (some [("x", "missing")]) [⟨1, "active"⟩] =
      .error e) ∧
    handle c4cfgBad orc0 db0 emptyStore = emptyStore ∧
    check_status_mapping (some [("a", "active"), ("default", "planned")])
        [⟨2, "active"⟩, ⟨1, "planned"⟩] =
      .ok (some [("a", 2), ("default", 1)]) := by
  have h1 := c4_status_mapping_validation.1 [("x", "missing")] c4cfgBad orc0
    db0 emptyStore rfl ⟨("x", "missing"), by decide, by decide⟩
  have h2 := c4_status_mapping_validation.2
    [("a", "active"), ("default", "planned")] [⟨2, "active"⟩, ⟨1, "planned"⟩]
    (by decide)
  exact ⟨h1.1, h1.2, by rw [h2]; rfl⟩

/-! ## C7 -/

/-- A mapping carrying its default entry makes `get_status` return
(the `None` of) a value rather than raise. -/
theorem get_status_safe (m : List (String × Nat)) (v : String)
    (h : (m.lookup "default").isSome) : get_status m v = .ok none := by
  obtain ⟨d, hd⟩ := Option.isSome_iff_exists.mp h
  simp [get_status, hd]

/-- Under safe lookups the pre-save pipeline of one node-phase record
never raises. -/
theorem node_candidate_ok (cfg : Cfg) (mapping : Option (List (String × Nat)))
    (usersDict : List (String × Option Nat))
    (dec : NodeRec → List Layer → LayerAnswer) (old : OldNode)
    (hsafe : mapping_safe mapping)
    (hdict : old.status ≠ "u" →
      ∃ uid, usersDict.lookup old.email = some (some uid)) :
    ∃ r, node_candidate cfg mapping usersDict dec old = .ok r := by
  cases hb : old.status == "u" with
  | true => exact ⟨(none, []), by simp [node_candidate, hb]⟩
  | false =>
    have hne : old.status ≠ "u" := by
      intro h
      rw [h] at hb
      simp at hb
    obtain ⟨uid, hl⟩ := hdict hne
    rcases mapping with _ | m
    · unfold node_candidate
      simp only [hb, Bool.false_eq_true, if_false, hl]
      repeat' split
      all_goals exact ⟨_, rfl⟩
    · by_cases hemp : m.isEmpty = true
      · unfold node_candidate
        simp only [hb, Bool.false_eq_true, if_false, hl, hemp, if_true]
        repeat' split
        all_goals exact ⟨_, rfl⟩
      · have hget := get_status_safe m old.status
          (hsafe m rfl (by simpa using hemp))
        unfold node_candidate
        simp only [hb, Bool.false_eq_true, if_false, hl, hemp, hget]
        repeat' split
        all_goals exact ⟨_, rfl⟩

/-- Under safe lookups one full node-phase record iteration never
raises: a validation failure is caught by the save guard. -/
theorem import_node_one_ok (cfg : Cfg) (mapping : Option (List (String × Nat)))
    (usersDict : List (String × Option Nat))
    (dec : NodeRec → List Layer → LayerAnswer) (cleanOk : NodeRec → Bool)
    (old : OldNode) (hsafe : mapping_safe mapping)
    (hdict : old.status ≠ "u" →
      ∃ uid, usersDict.lookup old.email = some (some uid)) :
    ∃ r, import_node_one cfg mapping usersDict dec cleanOk old = .ok r := by
  obtain ⟨⟨n?, ls⟩, hr⟩ := node_candidate_ok cfg mapping usersDict dec old hsafe hdict
  cases n? with
  | none => exact ⟨(none, ls), by simp [import_node_one, hr]⟩
  | some n =>
    cases hc : cleanOk n with
    | true => exact ⟨(some n, ls), by simp [import_node_one, hr, hc]⟩
    | false =>
      exact ⟨(none, ls ++ [⟨"Could not save node", n.name⟩]),
        by simp [import_node_one, hr, hc]⟩

/-- Under safe lookups the node phase never raises. -/
theorem import_nodes_ok (cfg : Cfg) (mapping : Option (List (String × Nat)))
    (usersDict : List (String × Option Nat))
    (dec : NodeRec → List Layer → LayerAnswer) (cleanOk : NodeRec → Bool) :
    ∀ olds : List OldNode, mapping_safe mapping → dict_safe usersDict olds →
      ∃ r, import_nodes cfg mapping usersDict dec cleanOk olds = .ok r := by
  intro olds
  induction olds with
  | nil => exact fun _ _ => ⟨([], []), rfl⟩
  | cons old rest ih =>
    intro hsafe hdict
    obtain ⟨⟨n?, ls⟩, h1⟩ := import_node_one_ok cfg mapping usersDict dec
      cleanOk old hsafe (hdict old (List.mem_cons_self old rest))
    obtain ⟨⟨ns, ls'⟩, h2⟩ := ih hsafe
      (fun o ho => hdict o (List.mem_cons_of_mem old ho))
    exact ⟨(n?.toList ++ ns, ls ++ ls'), by simp [import_nodes, h1, h2]⟩

/-- When the failed device association does not raise, the devices
phase runs to completion on every input. -/
theorem import_devices_total (cleanOk : DeviceRec → Bool)
    (rpMatch : String → String → Bool) :
    ∀ (olds : List OldDevice) (rps : List RpRec) (nextRpId : Nat),
      ∃ out, import_devices cleanOk rpMatch false rps nextRpId olds =
        .ok out := by
  intro olds
  induction olds with
  | nil => intro rps nextRpId; exact ⟨_, rfl⟩
  | cons old rest ih =>
    intro rps nextRpId
    obtain ⟨out, hout⟩ := ih (device_rp_step rpMatch rps nextRpId old).1
      (device_rp_step rpMatch rps nextRpId old).2.2
    cases hc : cleanOk (build_device old) with
    | true =>
      exact ⟨(build_device old :: out.1, out.2.1,
          (device_rp_step rpMatch rps nextRpId old).2.1 ++ out.2.2.1,
          out.2.2.2.1, out.2.2.2.2),
        by simp [import_devices, hc, hout]⟩
    | false =>
      exact ⟨(out.1, out.2.1,
          (device_rp_step rpMatch rps nextRpId old).2.1 ++ out.2.2.1,
          out.2.2.2.1,
          ⟨"Could not save device", (build_device old).name⟩ :: out.2.2.2.2),
        by simp [import_devices, hc, hout]⟩

/-- C7: refuted on the code — in the devices phase a single record's
save failure aborts the batch: the save failure itself is caught and
logged (lines 480-486), but `device.routing_protocols.add` (line 493)
then runs unguarded on the unsaved device, and on a database enforcing
the association's foreign key the insert raises an uncaught
`IntegrityError`.  In this concrete two-record batch the first
record's failure aborts the phase and the second, valid record is
never saved; the same batch on a non-enforcing database shows what the
claim expected — the failure logged with the device's name and the
phase continuing. -/
theorem c7_single_record_abort_counterexample :
    import_devices (fun d => !(d.name == "bad")) (fun a b => a == b) true
        [] 1 [oldDevBad, oldDevGood] = .error .integrityError ∧
    import_devices (fun d => !(d.name == "bad")) (fun a b => a == b) false
        [] 1 [oldDevBad, oldDevGood] =
      .ok ([build_device oldDevGood], [⟨1, "olsr"⟩], [⟨1, "olsr"⟩], 2,
        [⟨"Could not save device", "bad"⟩]) := by
  exact ⟨by decide, by decide⟩

/-- C7 amended: in the user, node, interface (with sub-entities), link
and contact phases, a validation or persistence failure for one record
is caught, logged with the record's identifying key, and the phase
continues to the remaining records — no single record failure aborts
those phases.  In the devices phase the save failure itself is caught
and logged, but the routing-protocol association that follows
(line 493) runs unguarded on the unsaved device: on a database that
enforces the association's foreign key it raises an uncaught
`IntegrityError` and the single failing record aborts the phase;
only when that association does not raise does the devices phase
isolate the failure and continue. -/
theorem c7_per_record_failure_isolation_amended :
    (∀ (ipv : String → Bool) (ifc : IfaceRec → Bool) (vapc : VapRec → Bool)
        (ipc : IpRec → Bool) (olds : List OldInterface),
      (import_interfaces ipv ifc vapc ipc olds).1 =
        olds.filterMap (fun o =>
          if ifc (convert_old_interface ipv o).iface then
            some (convert_old_interface ipv o).iface
          else none)) ∧
    (∀ (ipv : String → Bool) (ifc : IfaceRec → Bool) (vapc : VapRec → Bool)
        (ipc : IpRec → Bool) (olds : List OldInterface) (o : OldInterface),
      o ∈ olds → ifc (convert_old_interface ipv o).iface = false →
      (⟨"Could not save interface", (convert_old_interface ipv o).iface.mac⟩ : LogEntry) ∈
        (import_interfaces ipv ifc vapc ipc olds).2.2.2.2) ∧
    (∀ cfg mapping usersDict dec cleanOk (old : OldNode) (rest : List OldNode),
      mapping_safe mapping → dict_safe usersDict (old :: rest) →
      ∃ n? l saved log,
        import_node_one cfg mapping usersDict dec cleanOk old = .ok (n?, l) ∧
        import_nodes cfg mapping usersDict dec cleanOk rest = .ok (saved, log) ∧
        import_nodes cfg mapping usersDict dec cleanOk (old :: rest) =
          .ok (n?.toList ++ saved, l ++ log)) ∧
    (∀ cfg mapping usersDict dec (cleanOk : NodeRec → Bool) (old : OldNode)
        (n : NodeRec) (ls : List LogEntry),
      node_candidate cfg mapping usersDict dec old = .ok (some n, ls) →
      cleanOk n = false →
      import_node_one cfg mapping usersDict dec cleanOk old =
        .ok (none, ls ++ [⟨"Could not save node", n.name⟩])) ∧
    (∀ (slug pw : String → String) (cleanOk : UserRec → Bool)
        (email owner : String) (rest : List (String × String))
        (firstId : Nat) (existing : List String),
      cleanOk (build_user slug pw firstId existing email owner) = false →
      import_users slug pw cleanOk ((email, owner) :: rest) firstId existing =
        ((import_users slug pw cleanOk rest firstId existing).1,
         (email, none) ::
           (import_users slug pw cleanOk rest firstId existing).2.1,
         ⟨"Could not save user",
            (build_user slug pw firstId existing email owner).username⟩ ::
           (import_users slug pw cleanOk rest firstId existing).2.2)) ∧
    (∀ (cleanOk : DeviceRec → Bool) (rpMatch : String → String → Bool)
        (rps : List RpRec) (nextRpId : Nat) (old : OldDevice)
        (rest : List OldDevice),
      cleanOk (build_device old) = false →
      import_devices cleanOk rpMatch true rps nextRpId (old :: rest) =
        .error .integrityError) ∧
    (∀ (cleanOk : DeviceRec → Bool) (rpMatch : String → String → Bool)
        (rps : List RpRec) (nextRpId : Nat) (olds : List OldDevice),
      ∃ out, import_devices cleanOk rpMatch false rps nextRpId olds =
        .ok out) ∧
    (∀ (cleanOk : DeviceRec → Bool) (rpMatch : String → String → Bool)
        (rps : List RpRec) (nextRpId : Nat) (old : OldDevice)
        (rest : List OldDevice)
        (out : List DeviceRec × List RpRec × List RpRec × Nat × List LogEntry),
      cleanOk (build_device old) = false →
      import_devices cleanOk rpMatch false
          (device_rp_step rpMatch rps nextRpId old).1
          (device_rp_step rpMatch rps nextRpId old).2.2 rest = .ok out →
      import_devices cleanOk rpMatch false rps nextRpId (old :: rest) =
        .ok (out.1, out.2.1,
          (device_rp_step rpMatch rps nextRpId old).2.1 ++ out.2.2.1,
          out.2.2.2.1,
          ⟨"Could not save device", (build_device old).name⟩ ::
            out.2.2.2.2)) ∧
    (∀ (cleanOk : LinkRec → Bool) (ifaces : List IfaceRec) (old : OldLink)
        (rest : List OldLink),
      (ifaces.find? (fun i => i.id == old.from_interface_id)).isSome = true →
      ((retype_wireless ifaces old.from_interface_id).find?
          (fun i => i.id == old.to_interface_id)).isSome = true →
      cleanOk (build_link old.from_interface_id old.to_interface_id old) =
        false →
      import_links cleanOk ifaces (old :: rest) =
        ((import_links cleanOk
            (retype_wireless (retype_wireless ifaces old.from_interface_id)
              old.to_interface_id) rest).1,
         (import_links cleanOk
            (retype_wireless (retype_wireless ifaces old.from_interface_id)
              old.to_interface_id) rest).2.1,
         ⟨"Could not save link", toString old.id⟩ ::
           (import_links cleanOk
              (retype_wireless (retype_wireless ifaces old.from_interface_id)
                old.to_interface_id) rest).2.2)) ∧
    (∀ (cleanOk : ContactRec → Bool) (nextId : Nat) (old : OldContact)
        (rest : List OldContact),
      cleanOk (build_contact nextId old) = false →
      import_contacts cleanOk nextId (old :: rest) =
        ((import_contacts cleanOk nextId rest).1,
         ⟨"Could not save contact log entry", toString old.id⟩ ::
           (import_contacts cleanOk nextId rest).2)) := by
  refine ⟨?_, ?_, ?_, ?_, ?_, ?_, ?_, ?_, ?_, ?_⟩
  · intro ipv ifc vapc ipc olds
    induction olds with
    | nil => rfl
    | cons o rest ih =>
      cases hc : ifc (convert_old_interface ipv o).iface with
      | true => simp [import_interfaces, hc, ih]
      | false => simp [import_interfaces, hc, ih]
  · intro ipv ifc vapc ipc olds o ho hfail
    induction olds with
    | nil => cases ho
    | cons q rest ih =>
      rcases List.mem_cons.mp ho with hq | hrest
      · subst hq
        simp [import_interfaces, hfail]
      · cases hc : ifc (convert_old_interface ipv q).iface with
        | true => simp [import_interfaces, hc, ih hrest]
        | false =>
          simp only [import_interfaces, hc, Bool.false_eq_true, if_false]
          exact List.mem_cons_of_mem _ (ih hrest)
  · intro cfg mapping usersDict dec cleanOk old rest hsafe hdict
    obtain ⟨⟨n?, l⟩, h1⟩ := import_node_one_ok cfg mapping usersDict dec
      cleanOk old hsafe (hdict old (List.mem_cons_self old rest))
    obtain ⟨⟨saved, log⟩, h2⟩ := import_nodes_ok cfg mapping usersDict dec
      cleanOk rest hsafe (fun o ho => hdict o (List.mem_cons_of_mem old ho))
    exact ⟨n?, l, saved, log, h1, h2, by simp [import_nodes, h1, h2]⟩
  · intro cfg mapping usersDict dec cleanOk old n ls hcand hfail
    simp [import_node_one, hcand, hfail]
  · intro slug pw cleanOk email owner rest firstId existing h
    simp [import_users, import_users_go, h]
  · intro cleanOk rpMatch rps nextRpId old rest h
    simp [import_devices, h]
  · intro cleanOk rpMatch rps nextRpId olds
    exact import_devices_total cleanOk rpMatch olds rps nextRpId
  · intro cleanOk rpMatch rps nextRpId old rest out h hout
    simp [import_devices, h, hout]
  · intro cleanOk ifaces old rest hA hB hfail
    simp [import_links, hA, hB, hfail]
  · intro cleanOk nextId old rest h
    simp [import_contacts, h]

/-- Witness for the amended C7: an interface batch whose middle record
fails — the other two records still saved, the failure logged with its
mac; a node and a user record whose caught save failures are logged;
a device batch whose first record's failure aborts the phase on an
enforcing database and is isolated on a non-enforcing one; and a link
and a contact record whose failures are logged while the phase
proceeds. -/
theorem c7_per_record_failure_isolation_amended_witness :
    (import_interfaces (fun _ => true)
        (fun i => !(i.mac == "00:11:22:33:44:55")) (fun _ => true)
        (fun _ => true) [oldIfaceEth, oldIface0, oldIfaceEth2]).1 =
      [convert_old_interface (fun _ => true) oldIfaceEth |>.iface,
       convert_old_interface (fun _ => true) oldIfaceEth2 |>.iface] ∧
    (⟨"Could not save interface", "00:11:22:33:44:55"⟩ : LogEntry) ∈
      (import_interfaces (fun _ => true)
        (fun i => !(i.mac == "00:11:22:33:44:55")) (fun _ => true)
        (fun _ => true) [oldIfaceEth, oldIface0, oldIfaceEth2]).2.2.2.2 ∧
    import_nodes c1cfg (some c1mapping) [("x@example.org", some 7)]
        (fun _ _ => .discard) (fun _ => false) [c1old] =
      .ok ([], [⟨"Could not save node", "n1"⟩]) ∧
    import_users id (fun _ => "pw") (fun _ => false) [("u@x", "Jo")] 1 [] =
      ([], [("u@x", none)], [⟨"Could not save user", "Jo"⟩]) ∧
    import_devices (fun d => !(d.name == "bad")) (fun a b => a == b) true
        [] 1 [oldDevBad, oldDevGood] = .error .integrityError ∧
    import_devices (fun d => !(d.name == "bad")) (fun a b => a == b) false
        [] 1 [oldDevBad, oldDevGood] =
      .ok ([build_device oldDevGood], [⟨1, "olsr"⟩], [⟨1, "olsr"⟩], 2,
        [⟨"Could not save device", "bad"⟩]) ∧
    import_links (fun _ => false) linkIfaces [oldLink0] =
      (linkIfaces, [], [⟨"Could not save link", "41"⟩]) ∧
    import_contacts (fun _ => false) 1 [oldContact0] =
      ([], [⟨"Could not save contact log entry", "51"⟩]) := by
  have h := c7_per_record_failure_isolation_amended
  refine ⟨?_, ?_, ?_, ?_, ?_, ?_, ?_, ?_⟩
  · rw [h.1 (fun _ => true) (fun i => !(i.mac == "00:11:22:33:44:55"))
      (fun _ => true) (fun _ => true) [oldIfaceEth, oldIface0, oldIfaceEth2]]
    decide
  · exact h.2.1 (fun _ => true) (fun i => !(i.mac == "00:11:22:33:44:55"))
      (fun _ => true) (fun _ => true) [oldIfaceEth, oldIface0, oldIfaceEth2]
      oldIface0 (by decide) (by decide)
  · obtain ⟨n?, l, saved, log, h1, h2, h3⟩ :=
      h.2.2.1 c1cfg (some c1mapping) [("x@example.org", some 7)]
        (fun _ _ => .discard) (fun _ => false) c1old []
        (by intro m hm hemp; cases hm; decide)
        (by intro o ho hst
            rcases List.mem_cons.mp ho with rfl | hc
            · exact ⟨7, rfl⟩
            · cases hc)
    have h4 := h.2.2.2.1 c1cfg (some c1mapping) [("x@example.org", some 7)]
      (fun _ _ => .discard) (fun _ => false) c1old (build_node 7 c1old) []
      (by decide) rfl
    have h5 := h1.symm.trans h4
    injection h5 with h6
    injection h6 with h7 h8
    subst h7
    subst h8
    injection h2 with h9
    injection h9 with h10 h11
    subst h10
    subst h11
    rw [h3]
    simp [build_node, c1old]
  · have h5 := h.2.2.2.2.1 id (fun _ => "pw") (fun _ => false) "u@x" "Jo"
      [] 1 [] rfl
    rw [h5]
    decide
  · exact h.2.2.2.2.2.1 (fun d => !(d.name == "bad")) (fun a b => a == b)
      [] 1 oldDevBad [oldDevGood] (by decide)
  · have h8 := h.2.2.2.2.2.2.2.1 (fun d => !(d.name == "bad"))
      (fun a b => a == b) [] 1 oldDevBad [oldDevGood]
      ([build_device oldDevGood], [⟨1, "olsr"⟩], [], 2, [])
      (by decide) (by decide)
    rw [h8]
    decide
  · have h9 := h.2.2.2.2.2.2.2.2.1 (fun _ => false) linkIfaces oldLink0 []
      (by decide) (by decide) rfl
    rw [h9]
    decide
  · have h10 := h.2.2.2.2.2.2.2.2.2 (fun _ => false) 1 oldContact0 [] rfl
    rw [h10]
    decide

/-! ## C6 -/

/-- Membership in the emails extracted under a seen-set: exactly the
legacy emails not yet seen. -/
theorem extract_go_mem (olds : List OldNode) :
    ∀ (seen : List String) (e : String),
      e ∈ (extract_go seen olds).map Prod.fst ↔
        e ∉ seen ∧ e ∈ olds.map OldNode.email := by
  induction olds with
  | nil => intro seen e; simp [extract_go]
  | cons n rest ih =>
    intro seen e
    by_cases hmem : n.email ∈ seen <;> by_cases he : e = n.email <;>
      simp [extract_go, hmem, he, ih]

/-- The extracted email list has no duplicates. -/
theorem extract_go_nodup (olds : List OldNode) :
    ∀ seen : List String, ((extract_go seen olds).map Prod.fst).Nodup := by
  induction olds with
  | nil => intro seen; simp [extract_go]
  | cons n rest ih =>
    intro seen
    by_cases hmem : n.email ∈ seen
    · simpa [extract_go, hmem] using ih seen
    · have hrw : extract_go seen (n :: rest) =
          (n.email, n.owner) :: extract_go (n.email :: seen) rest := by
        simp [extract_go, hmem]
      rw [hrw, List.map_cons, List.nodup_cons]
      refine ⟨?_, ih (n.email :: seen)⟩
      intro hc
      have := (extract_go_mem rest (n.email :: seen) n.email).mp hc
      exact this.1 (List.mem_cons_self _ _)

/-- With every user save succeeding, the user phase creates one user
per extracted entry, in order, carrying the entry's email. -/
theorem import_users_emails (slug : String → String) (pw : String → String) :
    ∀ (entries : List (String × String)) (firstId : Nat)
      (existing : List String),
      ((import_users slug pw (fun _ => true) entries firstId existing).1.map
        (fun u => u.email)) = entries.map Prod.fst := by
  intro entries
  induction entries with
  | nil => intro firstId existing; rfl
  | cons q rest ih =>
    intro firstId existing
    rcases q with ⟨email, owner⟩
    simp [import_users, import_users_go, build_user]
    exact ih _ _

/-- The collision loop returns the candidate at the first free
counter, provided a free counter is within the fuel bound. -/
theorem unique_username_go_reaches (taken : List String) (base : String) :
    ∀ (fuel c k : Nat), c ≤ k →
      (∀ j, c ≤ j → j < k → candidate base j ∈ taken) →
      candidate base k ∉ taken → k - c ≤ fuel →
      unique_username_go taken base fuel c = candidate base k := by
  intro fuel
  induction fuel with
  | zero =>
    intro c k hck _ _ hfuel
    have : c = k := by omega
    subst this
    rfl
  | succ fuel ih =>
    intro c k hck htaken hfree hfuel
    by_cases he : c = k
    · subst he
      simp [unique_username_go, hfree]
    · have hc : candidate base c ∈ taken := htaken c le_rfl (by omega)
      have : unique_username_go taken base (fuel + 1) c =
          unique_username_go taken base fuel (c + 1) := by
        simp [unique_username_go, hc]
      rw [this]
      exact ih (c + 1) k (by omega)
        (fun j hj hjk => htaken j (by omega) hjk) hfree (by omega)

/-- C6: confirmed — the user phase derives exactly one identity per
unique legacy email (the extracted emails are duplicate-free and cover
precisely the legacy emails, and with saves succeeding one user is
created per entry), and a slugified username colliding with an
already-persisted one receives the first free increasing numeric
suffix, giving the deterministic sequence base, base2, base3, …  The
final numeric hypothesis only bounds the search: distinct counters
render distinct suffixes, so the first free suffix always lies within
it. -/
theorem c6_unique_user_identities :
    (∀ olds : List OldNode,
      ((extract_users olds).map Prod.fst).Nodup ∧
      ∀ e, e ∈ (extract_users olds).map Prod.fst ↔
        e ∈ olds.map OldNode.email) ∧
    (∀ (slug pw : String → String) (entries : List (String × String))
        (firstId : Nat) (existing : List String),
      ((import_users slug pw (fun _ => true) entries firstId existing).1.map
        (fun u => u.email)) = entries.map Prod.fst) ∧
    (∀ (taken : List String) (base : String), base ∉ taken →
      unique_username taken base = base) ∧
    (∀ (taken : List String) (base : String) (k : Nat), base ∈ taken →
      2 ≤ k → (∀ j, 2 ≤ j → j < k → base ++ toString j ∈ taken) →
      base ++ toString k ∉ taken → k ≤ taken.length + 2 →
      unique_username taken base = base ++ toString k) := by
  refine ⟨?_, ?_, ?_, ?_⟩
  · intro olds
    exact ⟨extract_go_nodup olds [],
      fun e => by simpa using extract_go_mem olds [] e⟩
  · intro slug pw entries firstId existing
    exact import_users_emails slug pw entries firstId existing
  · intro taken base h
    have : candidate base 1 = base := by simp [candidate]
    simp [unique_username, unique_username_go, this, h]
  · intro taken base k hbase hk htaken hfree hbound
    have hck : candidate base k = base ++ toString k := by
      have : (k == 1) = false := by simp; omega
      simp [candidate, this]
    have := unique_username_go_reaches taken base (taken.length + 1) 1 k
      (by omega)
      (fun j hj hjk => by
        by_cases hj1 : j = 1
        · subst hj1
          simpa [candidate] using hbase
        · have : (j == 1) = false := by simp; omega
          simpa [candidate, this] using htaken j (by omega) hjk)
      (by simpa [hck] using hfree)
      (by omega)
    simpa [unique_username, hck] using this

/-- Witness for C6: two legacy nodes sharing an email yield one entry;
a fresh base keeps its name; a base colliding with `jdoe` and `jdoe2`
becomes `jdoe3`. -/
theorem c6_unique_user_identities_witness :
    ((extract_users [c5oldIn, c5oldOut]).map Prod.fst).Nodup ∧
    ((import_users id (fun _ => "pw") (fun _ => true)
        (extract_users [c5oldIn, c5oldOut]) 1 []).1.map
      (fun u => u.email)) = ["e@x"] ∧
    unique_username ["jdoe2"] "jdoe" = "jdoe" ∧
    unique_username ["jdoe", "jdoe2"] "jdoe" = "jdoe3" := by
  have h := c6_unique_user_identities
  refine ⟨(h.1 [c5oldIn, c5oldOut]).1, ?_, ?_, ?_⟩
  · rw [h.2.1 id (fun _ => "pw") (extract_users [c5oldIn, c5oldOut]) 1 []]
    decide
  · exact h.2.2.1 ["jdoe2"] "jdoe" (by decide)
  · have := h.2.2.2 ["jdoe", "jdoe2"] "jdoe" 3 (by decide) (by omega)
      (fun j h2 h3 => by
        have : j = 2 := by omega
        subst this
        decide)
      (by decide) (by decide)
    rw [this]
    decide

/-! ## C2 -/

theorem included_refl (s : Store) : s.Included s :=
  ⟨fun _ h => h, fun _ h => h, fun _ h => h, fun _ h => h, fun _ h => h,
   fun _ h => h, fun _ h => h, fun _ h => h, fun _ h => h, fun _ h => h⟩

theorem included_trans {t u s : Store} (h1 : t.Included u)
    (h2 : u.Included s) : t.Included s :=
  ⟨fun _ h => h2.1 (h1.1 h), fun _ h => h2.2.1 (h1.2.1 h),
   fun _ h => h2.2.2.1 (h1.2.2.1 h),
   fun _ h => h2.2.2.2.1 (h1.2.2.2.1 h),
   fun _ h => h2.2.2.2.2.1 (h1.2.2.2.2.1 h),
   fun _ h => h2.2.2.2.2.2.1 (h1.2.2.2.2.2.1 h),
   fun _ h => h2.2.2.2.2.2.2.1 (h1.2.2.2.2.2.2.1 h),
   fun _ h => h2.2.2.2.2.2.2.2.1 (h1.2.2.2.2.2.2.2.1 h),
   fun _ h => h2.2.2.2.2.2.2.2.2.1 (h1.2.2.2.2.2.2.2.2.1 h),
   fun _ h => h2.2.2.2.2.2.2.2.2.2 (h1.2.2.2.2.2.2.2.2.2 h)⟩

/-- Folding shrinking steps over a list yields a store included in the
start store. -/
theorem foldl_included {α : Type} (f : Store → α → Store)
    (hf : ∀ s a, (f s a).Included s) :
    ∀ (L : List α) (s : Store), (L.foldl f s).Included s := by
  intro L
  induction L with
  | nil => intro s; exact included_refl s
  | cons a L ih =>
    intro s
    exact included_trans (ih (f s a)) (hf s a)

theorem purgeInterfacesBy_included (s : Store) (p : Nat → Bool) :
    (s.purgeInterfacesBy p).Included s := by
  refine ⟨fun _ h => h, fun _ h => h, fun _ h => h, fun _ h => h,
    ?_, ?_, ?_, ?_, ?_, fun _ h => h⟩ <;>
    exact List.filter_subset' _

theorem purgeDevicesBy_included (s : Store) (p : Nat → Bool) :
    (s.purgeDevicesBy p).Included s := by
  obtain ⟨hu, hn, hd, hr, hi, hv, h4, h6, hl, hc⟩ :=
    purgeInterfacesBy_included s
      (fun iid => s.interfaces.any (fun i => i.id == iid && p i.device_id))
  exact ⟨hu, hn, fun _ h => hd (List.filter_subset' _ h), hr, hi, hv, h4, h6,
    hl, hc⟩

theorem purgeNodesBy_included (s : Store) (p : Nat → Bool) :
    (s.purgeNodesBy p).Included s := by
  obtain ⟨hu, hn, hd, hr, hi, hv, h4, h6, hl, hc⟩ :=
    purgeDevicesBy_included s
      (fun did => s.devices.any (fun d => d.id == did && p d.node_id))
  exact ⟨hu, fun _ h => hn (List.filter_subset' _ h), hd, hr, hi, hv, h4, h6,
    hl, hc⟩

theorem deleteInterface_included (s : Store) (iid : Nat) :
    (s.deleteInterface iid).Included s :=
  purgeInterfacesBy_included s (· == iid)

theorem deleteDevice_included (s : Store) (did : Nat) :
    (s.deleteDevice did).Included s :=
  purgeDevicesBy_included s (· == did)

theorem deleteRoutingProtocol_included (s : Store) (rid : Nat) :
    (s.deleteRoutingProtocol rid).Included s :=
  ⟨fun _ h => h, fun _ h => h, fun _ h => h, List.filter_subset' _,
   fun _ h => h, fun _ h => h, fun _ h => h, fun _ h => h, fun _ h => h,
   fun _ h => h⟩

theorem deleteNode_included (s : Store) (nid : Nat) :
    (s.deleteNode nid).Included s :=
  purgeNodesBy_included s (· == nid)

theorem deleteContact_included (s : Store) (cid : Nat) :
    (s.deleteContact cid).Included s :=
  ⟨fun _ h => h, fun _ h => h, fun _ h => h, fun _ h => h, fun _ h => h,
   fun _ h => h, fun _ h => h, fun _ h => h, fun _ h => h,
   List.filter_subset' _⟩

theorem deleteUser_included (s : Store) (uid : Nat) :
    (s.deleteUser uid).Included s := by
  obtain ⟨hu, hn, hd, hr, hi, hv, h4, h6, hl, hc⟩ :=
    purgeNodesBy_included s
      (fun nid => s.nodes.any (fun n => n.id == nid && n.user_id == uid))
  exact ⟨fun _ h => hu (List.filter_subset' _ h), hn, hd, hr, hi, hv, h4, h6,
    hl, hc⟩

/-- Rows surviving a key-based filter have a different key. -/
theorem filter_key_ne {α : Type} (l : List α) (f : α → Nat) (k : Nat) :
    ∀ x ∈ l.filter (fun a => !(f a == k)), f x ≠ k := by
  intro x hx
  have h := (List.mem_filter.mp hx).2
  simpa using h

/-- Deleting an interface leaves no trace of it. -/
theorem deleteInterface_gone (s : Store) (iid : Nat) :
    (s.deleteInterface iid).ifaceGone iid := by
  refine ⟨filter_key_ne _ _ _, filter_key_ne _ _ _, filter_key_ne _ _ _,
    filter_key_ne _ _ _, ?_⟩
  intro l hl
  have h := (List.mem_filter.mp hl).2
  simp at h
  exact h

/-- Absence of an interface id is preserved downward by inclusion. -/
theorem ifaceGone_mono {t s : Store} (iid : Nat) (h : s.ifaceGone iid)
    (hinc : t.Included s) : t.ifaceGone iid :=
  ⟨fun x hx => h.1 x (hinc.2.2.2.2.1 hx),
   fun v hv => h.2.1 v (hinc.2.2.2.2.2.1 hv),
   fun a ha => h.2.2.1 a (hinc.2.2.2.2.2.2.1 ha),
   fun a ha => h.2.2.2.1 a (hinc.2.2.2.2.2.2.2.1 ha),
   fun l hl => h.2.2.2.2 l (hinc.2.2.2.2.2.2.2.2.1 hl)⟩

/-- Deleting every journalled element establishes, for each of them,
any property that one delete step establishes and that inclusion
preserves. -/
theorem foldl_pred {α : Type} (f : Store → α → Store)
    (P : α → Store → Prop) (hincl : ∀ s a, (f s a).Included s)
    (hstep : ∀ s a, P a (f s a))
    (hmono : ∀ (a : α) (t s' : Store), P a s' → t.Included s' → P a t) :
    ∀ (L : List α) (a : α), a ∈ L → ∀ s : Store, P a (L.foldl f s) := by
  intro L
  induction L with
  | nil => intro a ha; cases ha
  | cons b L ih =>
    intro a ha s
    rcases List.mem_cons.mp ha with rfl | hmem
    · exact hmono a _ (f s a) (hstep s a) (foldl_included f hincl L (f s a))
    · exact ih a hmem (f s b)

theorem deleteDevice_gone (s : Store) (did : Nat) :
    ∀ x ∈ (s.deleteDevice did).devices, x.id ≠ did :=
  filter_key_ne _ (fun (d : DeviceRec) => d.id) did

theorem deleteRoutingProtocol_gone (s : Store) (rid : Nat) :
    ∀ x ∈ (s.deleteRoutingProtocol rid).routing_protocols, x.id ≠ rid :=
  filter_key_ne _ (fun (r : RpRec) => r.id) rid

theorem deleteNode_gone (s : Store) (nid : Nat) :
    ∀ x ∈ (s.deleteNode nid).nodes, x.id ≠ nid :=
  filter_key_ne _ (fun (n : NodeRec) => n.id) nid

theorem deleteContact_gone (s : Store) (cid : Nat) :
    ∀ x ∈ (s.deleteContact cid).contacts, x.id ≠ cid :=
  filter_key_ne _ (fun (c : ContactRec) => c.id) cid

theorem deleteUser_gone (s : Store) (uid : Nat) :
    ∀ x ∈ (s.deleteUser uid).users, x.id ≠ uid :=
  filter_key_ne _ (fun (u : UserRec) => u.id) uid

/-- C2: confirmed (with the foreign-key cascade of the destination
models spec-modelled) — after `delete_imported_data` runs on the
journal of a run whose sub-entities reference interfaces journalled by
the same run, no journalled entity of any kind remains in the store:
users, nodes, devices, routing protocols, interfaces, links, contacts,
and the interface sub-entities (vaps, IPv4 and IPv6 addresses). -/
theorem c2_rollback_removes_all_run_entities (j s : Store)
    (hvap : ∀ v ∈ j.vaps, ∃ i ∈ j.interfaces, i.id = v.interface_id)
    (hip4 : ∀ a ∈ j.ipv4s, ∃ i ∈ j.interfaces, i.id = a.interface_id)
    (hip6 : ∀ a ∈ j.ipv6s, ∃ i ∈ j.interfaces, i.id = a.interface_id)
    (hlink : ∀ l ∈ j.links,
      (∃ i ∈ j.interfaces, i.id = l.interface_a) ∨
      (∃ i ∈ j.interfaces, i.id = l.interface_b)) :
    run_purged j (delete_imported_data j s) := by
  have hII : ∀ (st : Store) (i : IfaceRec),
      (st.deleteInterface i.id).Included st :=
    fun st i => deleteInterface_included st i.id
  have hDI : ∀ (st : Store) (d : DeviceRec),
      (st.deleteDevice d.id).Included st :=
    fun st d => deleteDevice_included st d.id
  have hRI : ∀ (st : Store) (r : RpRec),
      (st.deleteRoutingProtocol r.id).Included st :=
    fun st r => deleteRoutingProtocol_included st r.id
  have hNI : ∀ (st : Store) (n : NodeRec),
      (st.deleteNode n.id).Included st :=
    fun st n => deleteNode_included st n.id
  have hCI : ∀ (st : Store) (c : ContactRec),
      (st.deleteContact c.id).Included st :=
    fun st c => deleteContact_included st c.id
  have hUI : ∀ (st : Store) (u : UserRec),
      (st.deleteUser u.id).Included st :=
    fun st u => deleteUser_included st u.id
  set s1 := j.interfaces.foldl (fun st i => st.deleteInterface i.id) s with hs1
  set s2 := j.devices.foldl (fun st d => st.deleteDevice d.id) s1 with hs2
  set s3 := j.routing_protocols.foldl
    (fun st r => st.deleteRoutingProtocol r.id) s2 with hs3
  set s4 := j.nodes.foldl (fun st n => st.deleteNode n.id) s3 with hs4
  set s5 := j.contacts.foldl (fun st c => st.deleteContact c.id) s4 with hs5
  set s6 := j.users.foldl (fun st u => st.deleteUser u.id) s5 with hs6
  have hfinal : delete_imported_data j s = s6 := rfl
  have h21 : s2.Included s1 := foldl_included _ hDI j.devices s1
  have h32 : s3.Included s2 := foldl_included _ hRI j.routing_protocols s2
  have h43 : s4.Included s3 := foldl_included _ hNI j.nodes s3
  have h54 : s5.Included s4 := foldl_included _ hCI j.contacts s4
  have h65 : s6.Included s5 := foldl_included _ hUI j.users s5
  have h62 : s6.Included s2 :=
    included_trans h65 (included_trans h54 (included_trans h43 h32))
  have h61 : s6.Included s1 := included_trans h62 h21
  have h63 : s6.Included s3 := included_trans h65 (included_trans h54 h43)
  have h64 : s6.Included s4 := included_trans h65 h54
  have hifaceG : ∀ i ∈ j.interfaces, s6.ifaceGone i.id := by
    intro i hi
    have hg1 : s1.ifaceGone i.id :=
      foldl_pred _ (fun i st => st.ifaceGone i.id) hII
        (fun st i => deleteInterface_gone st i.id)
        (fun i t s' h hinc => ifaceGone_mono i.id h hinc)
        j.interfaces i hi s
    exact ifaceGone_mono i.id hg1 h61
  rw [hfinal]
  refine ⟨?_, ?_, ?_, ?_, ?_, ?_, ?_, ?_, ?_, ?_⟩
  · intro u hu hmem
    have hg : ∀ x ∈ s6.users, x.id ≠ u.id :=
      foldl_pred _ (fun (u : UserRec) st => ∀ x ∈ st.users, x.id ≠ u.id) hUI
        (fun st u => deleteUser_gone st u.id)
        (fun u t s' h hinc x hx => h x (hinc.1 hx))
        j.users u hu s5
    exact hg u hmem rfl
  · intro n hn hmem
    have hg4 : ∀ x ∈ s4.nodes, x.id ≠ n.id :=
      foldl_pred _ (fun (n : NodeRec) st => ∀ x ∈ st.nodes, x.id ≠ n.id) hNI
        (fun st n => deleteNode_gone st n.id)
        (fun n t s' h hinc x hx => h x (hinc.2.1 hx))
        j.nodes n hn s3
    exact hg4 n (h64.2.1 hmem) rfl
  · intro d hd hmem
    have hg2 : ∀ x ∈ s2.devices, x.id ≠ d.id :=
      foldl_pred _ (fun (d : DeviceRec) st => ∀ x ∈ st.devices, x.id ≠ d.id)
        hDI (fun st d => deleteDevice_gone st d.id)
        (fun d t s' h hinc x hx => h x (hinc.2.2.1 hx))
        j.devices d hd s1
    exact hg2 d (h62.2.2.1 hmem) rfl
  · intro r hr hmem
    have hg3 : ∀ x ∈ s3.routing_protocols, x.id ≠ r.id :=
      foldl_pred _
        (fun (r : RpRec) st => ∀ x ∈ st.routing_protocols, x.id ≠ r.id)
        hRI (fun st r => deleteRoutingProtocol_gone st r.id)
        (fun r t s' h hinc x hx => h x (hinc.2.2.2.1 hx))
        j.routing_protocols r hr s2
    exact hg3 r (h63.2.2.2.1 hmem) rfl
  · intro i hi hmem
    exact (hifaceG i hi).1 i hmem rfl
  · intro v hv hmem
    obtain ⟨i, hi, hid⟩ := hvap v hv
    exact (hifaceG i hi).2.1 v hmem hid.symm
  · intro a ha hmem
    obtain ⟨i, hi, hid⟩ := hip4 a ha
    exact (hifaceG i hi).2.2.1 a hmem hid.symm
  · intro a ha hmem
    obtain ⟨i, hi, hid⟩ := hip6 a ha
    exact (hifaceG i hi).2.2.2.1 a hmem hid.symm
  · intro l hl hmem
    rcases hlink l hl with ⟨i, hi, hid⟩ | ⟨i, hi, hid⟩
    · exact ((hifaceG i hi).2.2.2.2 l hmem).1 hid.symm
    · exact ((hifaceG i hi).2.2.2.2 l hmem).2 hid.symm
  · intro c hc hmem
    have hg5 : ∀ x ∈ s5.contacts, x.id ≠ c.id :=
      foldl_pred _
        (fun (c : ContactRec) st => ∀ x ∈ st.contacts, x.id ≠ c.id)
        hCI (fun st c => deleteContact_gone st c.id)
        (fun c t s' h hinc x hx => h x (hinc.2.2.2.2.2.2.2.2.2 hx))
        j.contacts c hc s4
    exact hg5 c (h65.2.2.2.2.2.2.2.2.2 hmem) rfl

/-- Witness for C2: a one-entity-per-kind run journal whose store is
exactly the run's output; after rollback nothing remains. -/
theorem c2_rollback_removes_all_run_entities_witness :
    run_purged c2journal (delete_imported_data c2journal c2journal) :=
  c2_rollback_removes_all_run_entities c2journal c2journal
    (by decide) (by decide) (by decide) (by decide)

/-- Witness for C10 at a concrete wireless interface whose legacy
essid and bssid differ. -/
theorem c10_vap_both_fields_essid_witness :
    (convert_old_interface (fun _ => true) oldIface0).vap =
      some { interface_id := 9, essid := "myssid", bssid := "myssid" } ∧
    (("bssid", "aa:bb") ∈
      (convert_old_interface (fun _ => true) oldIface0).iface.data) ∧
    (∀ v, (convert_old_interface (fun _ => true) oldIface0).vap = some v →
      v.essid ≠ "aa:bb" ∧ v.bssid ≠ "aa:bb") := by
  have h := c10_vap_both_fields_essid (fun _ => true) oldIface0 rfl
    (Or.inl (by decide))
  exact ⟨h.1, h.2.1 (by decide), fun v hv => h.2.2 (by decide) v hv⟩

end Nodeshot
